import Mathlib

/-!
Verification of the pipeline-script generator and build orchestrator in
`bin/asl2c.py` (IntelLabs/asl-interpreter).

The Python source is shallowly embedded: strings are Lean `String`s, the
`argparse` record is the structure `Args`, environment lookups are functions
`String → Option String`, subprocess behaviour is an `Oracle` giving each
command an exit status, and the observable side effects of a session
(directory creation, file writes, subprocess invocations, deletion) are
collected in a `List Effect`.  Python exceptions (`KeyError`, `NameError`,
`EnvironmentError`) are represented by the `PyError` type.
-/

namespace Asl2c

/-! ## String utilities

`splitNL`/`splitlines` model Python `str.splitlines` for strings whose only
line-break character is `'\n'` — the only kind of line break the script
generator itself emits.  Theorems that quantify over user-supplied strings
carry a `lineSafe` hypothesis restricting them to newline-free text so that
this model agrees with Python. -/

/-- Split a character list at each newline character. -/
def splitNL : List Char → List (List Char)
  | [] => [[]]
  | c :: cs =>
    if c = '\n' then [] :: splitNL cs
    else
      match splitNL cs with
      | [] => [[c]]
      | l :: ls => (c :: l) :: ls

/-- Python `str.splitlines` (restricted to `'\n'` separators). -/
def splitlines (s : String) : List String := (splitNL s.data).map String.mk

/-- Python `"\n".join(lines)`. -/
def joinNL : List String → String
  | [] => ""
  | [s] => s
  | s :: rest => s ++ "\n" ++ joinNL rest

/-- The string contains no newline character. -/
def noNL (s : String) : Prop := '\n' ∉ s.data

instance (s : String) : Decidable (noNL s) := by unfold noNL; infer_instance

/-- The string contains none of the characters Python `str.splitlines`
treats as a line break (so our `'\n'`-only `splitlines` model is faithful
on it). -/
def lineSafe (s : String) : Prop :=
  ∀ c ∈ s.data, c ∉ ['\n', '\r', '\x0b', '\x0c', '\x1c', '\x1d', '\x1e',
    '\x85', '\u2028', '\u2029']

instance (s : String) : Decidable (lineSafe s) := by
  unfold lineSafe; infer_instance

/-- First character of a string, if any. -/
def headChar (s : String) : Option Char := s.data.head?

/-- Python `l.startswith(":")`. -/
def startswithColon (s : String) : Bool :=
  match s.data with
  | [] => false
  | c :: _ => c = ':'

/-- Python `s.startswith(pre)` for a general prefix. -/
def startswithStr (s pre : String) : Bool := pre.data.isPrefixOf s.data

/-- Python's whitespace test used by `str.split()`. -/
def pyIsSpace (c : Char) : Bool :=
  c = ' ' || c = '\t' || c = '\n' || c = '\r' || c = '\x0b' || c = '\x0c'

/-- Helper for `pySplit`: split on whitespace runs, discarding empty parts. -/
def wsSplitAux : List Char → List Char → List (List Char)
  | [], acc => if acc.isEmpty then [] else [acc.reverse]
  | c :: cs, acc =>
    if pyIsSpace c then
      if acc.isEmpty then wsSplitAux cs [] else acc.reverse :: wsSplitAux cs []
    else wsSplitAux cs (c :: acc)

/-- Python `s.split()` (no separator argument). -/
def pySplit (s : String) : List String := (wsSplitAux s.data []).map String.mk

/-- Python `s[1:]` on a string. -/
def strTail (s : String) : String := String.mk (s.data.drop 1)

/-- Python `f"{i:02}"` for a natural number. -/
def pyFormat02 (i : Nat) : String :=
  if i < 10 then "0" ++ Nat.repr i else Nat.repr i

/-- Python `pat in s` (substring test). -/
def strContains (s pat : String) : Bool :=
  (List.range (s.data.length + 1)).any (fun i => pat.data.isPrefixOf (s.data.drop i))

/-- Index of the last occurrence of a character, if any. -/
def rfindChar : List Char → Char → Option Nat
  | [], _ => none
  | x :: rest, c =>
    match rfindChar rest c with
    | some j => some (j + 1)
    | none => if x = c then some 0 else none

/-- Python `os.path.dirname` (posix). -/
def pyDirname (p : String) : String :=
  let cs := p.data
  let i := match rfindChar cs '/' with
    | some j => j + 1
    | none => 0
  let head := cs.take i
  let head := if head ≠ [] ∧ head.any (fun c => c ≠ '/') then
      (head.reverse.dropWhile (fun c => c = '/')).reverse
    else head
  String.mk head

/-- Python `os.path.basename` (posix). -/
def pyBasename (p : String) : String :=
  let cs := p.data
  let i := match rfindChar cs '/' with
    | some j => j + 1
    | none => 0
  String.mk (cs.drop i)

/-- Python `os.path.join a b` (posix, two arguments). -/
def pyJoin (a b : String) : String :=
  if startswithStr b "/" then b
  else if a = "" ∨ a.data.getLast? = some '/' then a ++ b
  else a ++ "/" ++ b

/-- Root part of Python `os.path.splitext` applied to a bare filename
(no directory separators): the extension starts at the last dot, except
that a leading run of dots does not begin an extension. -/
def pySplitextRoot (p : String) : String :=
  let cs := p.data
  match rfindChar cs '.' with
  | none => p
  | some d => if (cs.take d).any (fun c => c ≠ '.') then String.mk (cs.take d) else p

/-! ## The base script template (`base_script`, asl2c.py lines 31-209)

The Python source holds the template as one triple-quoted string with
`str.format` placeholders and runs `.strip()` on it.  Here the stripped,
formatted result is assembled line by line: the literal segments `seg1` …
`seg10` are the template's fixed lines (in order), and the placeholder
lines are spliced between them from a `Subs` record mirroring the
`substitutions` dictionary of `mk_script`.  Joining with `joinNL` yields a
string byte-identical to `base_script.format(**substitutions)`. -/

/-- The `str.format` substitutions built in `mk_script` (asl2c.py 334-359). -/
structure Subs where
  command : String
  generate_c : String
  suppress_bitslice_xform : String
  xform_int_bitslices : String
  track_valid : String
  wrap_variables : String
  auto_case_split : String
  bounded_int : String
  deriving DecidableEq

/-- Template lines before the `{command}` placeholder. -/
def seg1 : List String := [
  "// Autogenerated script to generate C code from ASL",
  "//"]

/-- Template lines between `{command}` and `{xform_int_bitslices}`. -/
def seg2 : List String := [
  "",
  "// Discard any code not reachable from the list of exported functions.",
  "// This is done early because it can remove code that we cannot compile.",
  "//",
  "// The list of exports is loaded using the \"--configuration=foo.json\" flag",
  "// and an example json file that exports two functions called \"Reset\" and \"Step\"",
  "// is as follows.",
  "//",
  "//     \x7b",
  "//         \"__comment\": [",
  "//             \"Export the interface required by the simulator\"",
  "//         ],",
  "//         \"exports\": [",
  "//             \"Reset\",",
  "//             \"Step\"",
  "//         ]",
  "//     \x7d",
  "//",
  "// The \"__comment\" part is optional and is ignored.",
  "//",
  "// Multiple configuration files can be loaded if you want to group the set of",
  "// exports into multiple logical interfaces.",
  "//",
  ":filter_reachable_from --keep-builtins exports",
  "",
  "// A series of \x27desugaring\x27 passes eliminate features that complicate later transformations.",
  "// Later transformations will fail if these features have not been removed.",
  "",
  "// Eliminate \x27typedef\x27",
  ":xform_named_type",
  "",
  "// Eliminate bit,int arithmetic operations like \"\x27000\x27 + 3\"",
  ":xform_desugar",
  "",
  "// Eliminate bit-tuples like \"[x,y] = z;\" and \"x[7:0, 15:8]\";",
  ":xform_bittuples",
  "",
  "// Convert all bit-slice operations to use the +: syntax.",
  "// e.g., \"x[7:0]\" --> \"x[0 +: 8]\"",
  ":xform_lower",
  ""]

/-- Template lines between `{xform_int_bitslices}` and `{track_valid}`. -/
def seg3 : List String := [
  "",
  "// Convert use of getter/setter syntax to function calls.",
  "// e.g., \"Mem[a, sz] = x\" --> \"Mem_set(a, sz, x)\"",
  ":xform_getset",
  ""]

/-- Template lines between `{track_valid}` and the first
`:xform_monomorphize {auto_case_split}` line. -/
def seg4 : List String := [
  "",
  "// Perform constant propagation without unrolling loops",
  "// This helps identify potential targets for the monomorphization pass.",
  ":xform_constprop --nounroll",
  "",
  "// Create specialized versions of every bitwidth-polymorphic function",
  "// and change all function calls to use the appropriate specialized",
  "// version.",
  "// (Note that this performs an additional round of constant propagation.)"]

/-- Template lines between the two `:xform_monomorphize` lines. -/
def seg5 : List String := [
  "",
  "// Discard any code not reachable from the list of exported functions.",
  "// This step is repeated because it deletes any bitwidth-polymorphic functions",
  "// that have been completely replaced by specialized versions of the functions.",
  ":filter_reachable_from --keep-builtins exports",
  "",
  "// todo: explain why this needs to be repeated"]

/-- Template lines between the second `:xform_monomorphize` line and the
`:xform_bitslices {suppress_bitslice_xform}` line. -/
def seg6 : List String := [
  "",
  "// Perform a further round of simplifying passes.",
  "// This is done after performing monomorphization and constant propagation",
  "// because they work better in code where bitwidths are constants",
  "// or they make constant propagation less precise.",
  "",
  "// Change any function that returns multiple results to return a",
  "// record with multiple fields and change all calls to that function.",
  "// (This makes constant propagation less precise because constant propagation",
  "// is not field sensitive.)",
  ":xform_tuples",
  "",
  "// Convert use of getter/setter syntax to function calls.",
  "// e.g., \"Mem[a, sz] = x\" --> \"Mem_set(a, sz, x)\"",
  "// (This is repeated because xform_tuples can expose additional",
  "// getter/setter calls.)",
  ":xform_getset",
  "",
  "// todo: explain why this needs to be repeated",
  ":xform_bittuples",
  "",
  "// Lift let-expressions as high as possible out of an expression",
  "// e.g., F(G(let t = 1 in H(t))) -> let t = 1 in F(G(H(t)))",
  "// (This makes later transformations work better if, for example,",
  "// they should match against \"G(H(..))\")",
  "//",
  "// Note that source code is not expected to contain let-expressions.",
  "// They only exist to make some transformations easier to write.",
  ":xform_hoist_lets",
  "",
  "// Convert bitslice operations like \"x[i] = \x271\x27;\" to a combination",
  "// of AND/OR and shift operations like \"x = x OR (1 << i);\"",
  "// This works better after constant propagation/monomorphization."]

/-- Template lines between `:xform_bitslices` and `{wrap_variables}`. -/
def seg7 : List String := [
  "",
  "// Any case statement that does not correspond to what the C language",
  "// supports is converted to an if statement.",
  "// This works better after constant propagation/monomorphization",
  "// because that can eliminate/simplify guards on the clauses of the case statement.",
  ":xform_case",
  ""]

/-- Template lines between `{wrap_variables}` and `{bounded_int}`. -/
def seg8 : List String := [
  "",
  "// A final pass of constant propagation simplifies any constant expressions",
  "// introduced by previous transforms",
  ":xform_constprop --nounroll",
  "",
  "// Optimization: optionally use :xform_bounded to represent any",
  "// constrained integers by an integer that is exactly the right size",
  "// to contain it.",
  "// This should come at the end of all the transformations because it changes",
  "// the types of functions."]

/-- Template lines between `{bounded_int}` and `:{generate_c}`. -/
def seg9 : List String := [
  "",
  "// To let the generated code call your own functions, you need to declare",
  "// the type of an ASL function with a matching type and provide a configuration",
  "// file containing a list of these external functions.",
  "// For example, if you want to track reads and writes to memory, you might",
  "// use this import file (loaded using the --configuration flag)",
  "//",
  "//     \x7b",
  "//         \"__comment\": [",
  "//             \"Import memory trace functions\"",
  "//         ],",
  "//         \"imports\": [",
  "//             \"TraceMemRead\",",
  "//             \"TraceMemWrite\"",
  "//         ]",
  "//     \x7d",
  "//",
  "// If you have defined the behavior of these functions in ASL (e.g., for use in",
  "// the ASL interpreter), you need to delete the ASL definitions of these",
  "// functions.",
  ":filter_unlisted_functions imports",
  "",
  "// Deleting the ASL definitions of any functions on the import list may",
  "// result in additional dead code (i.e., functions that are only used by",
  "// those functions) so delete any unreachable functions",
  ":filter_reachable_from exports",
  "",
  "// Check that all definitions are bitwidth-monomorphic and report a useful",
  "// error message if they are not.",
  "// The code generator will produce an error message if it finds a call",
  "// to a polymorphic functions but we can produce a much more useful error message",
  "// if we scan for all polymorphic functions and organize the list of functions",
  "// into a call tree so that you can see which functions are at the roots of",
  "// the tree (and therefore are the ones that you need to fix).",
  ":check_monomorphization --fatal --verbose",
  "",
  "// Generate C code from the remaining definitions",
  "//",
  "// This produces multiple files that will be prefixed by the basename and saved",
  "// into the output-dir directory.",
  "//",
  "// Compilation of all the functions can be parallelized by splitting the",
  "// file containing the functions into smaller files (using --num-c-files=<N>)",
  "// and compiling them in parallel.",
  "//",
  "// Optionally, the C code can use #line directives so that profiling, debuggers,",
  "// etc. know what file/line in the ASL file produced each line of C code.",
  "// Use --line-info or --no-line-info to control this.",
  "//",
  "// Optionally, global state can be split across multiple structs.",
  "// (This can be useful when modelling multi-processor systems to separate",
  "// thread-local state from global state.)"]

/-- Template lines after `:{generate_c}`. -/
def seg10 : List String := [
  "",
  ":quit"]

/-- The formatted template, line by line:
`base_script.format(**substitutions)` split at the template's own
newlines.  Multi-line or empty substitution values simply occupy their
single spliced slot here; `joinNL` recovers the exact formatted string. -/
def base_script_lines (s : Subs) : List String :=
  seg1 ++ ["// Generated by command: " ++ s.command] ++
  seg2 ++ [s.xform_int_bitslices] ++
  seg3 ++ [s.track_valid] ++
  seg4 ++ [":xform_monomorphize " ++ s.auto_case_split] ++
  seg5 ++ [":xform_monomorphize " ++ s.auto_case_split] ++
  seg6 ++ [":xform_bitslices " ++ s.suppress_bitslice_xform] ++
  seg7 ++ [s.wrap_variables] ++
  seg8 ++ [s.bounded_int] ++
  seg9 ++ [":" ++ s.generate_c] ++
  seg10

/-- `base_script.format(**substitutions)` as a single string. -/
def base_script (s : Subs) : String := joinNL (base_script_lines s)

/-! ## Data model: options, errors, effects -/

/-- The parsed command-line options of `asl2c.py` (argparse record,
asl2c.py 495-526).  `argparse.BooleanOptionalAction` flags default to
`None` in Python; since every use is a truthiness test, they are modelled
as `Bool` with default `false`.  `--intermediates` is an optional string
(`none` = not given). -/
structure Args where
  intermediates : Option String := none
  output_dir : String := ""
  basename : String := "asl"
  num_c_files : Nat := 1
  configuration : List String := []
  auto_case_split : Bool := false
  const_ref : Nat := 0
  constraint_checks : Bool := false
  extra_c : List String := []
  exports : List String := []
  generate_cxx : Bool := false
  imports : List String := []
  line_info : Bool := false
  new_ffi : Bool := false
  runtime_checks : Bool := false
  split_state : Bool := false
  transform_int_slices : Bool := false
  instrument_unknown : Bool := false
  wrap_variables : Bool := false
  O0 : Bool := false
  Obounded : Bool := false
  backend : String := "c23"
  print_c_flags : Bool := false
  print_ld_flags : Bool := false
  build : Bool := false
  run : Bool := false
  show_final_asl : Bool := false
  save_temps : Bool := false
  working_dir : String := ""
  asl_files : List String := []
  deriving DecidableEq

/-- Python exceptions that the script can raise. -/
inductive PyError where
  | nameError (name : String)
  | keyError (key : String)
  | environmentError (msg : String)
  deriving DecidableEq

/-- Observable side effects of one invocation: workspace creation
(`os.makedirs` / `tempfile.mkdtemp`), file writes, subprocess calls
(`subprocess.run` via `run`, `subprocess.check_output`, and the
`which` probes of `compile_and_link`), stdout prints, and workspace
deletion (`shutil.rmtree`). -/
inductive Effect where
  | mkWorkspace (dir : String)
  | writeFile (path : String)
  | runProc (cmd : List String)
  | checkOutput (cmd : List String)
  | probe (cmd : List String)
  | printOut (s : String)
  | rmtree (dir : String)
  deriving DecidableEq

/-- How one invocation of the program ends: normal completion,
`sys.exit(code)` with a nonzero forwarded exit status, or an uncaught
Python exception. -/
inductive SessionResult where
  | completed
  | exited (code : Nat)
  | crashed (e : PyError)
  deriving DecidableEq

/-- Behaviour of the outside world: the exit status each `run` command
would return, the result of `which` probes, the flag lines an installed
ASLi would print, and the name `tempfile.mkdtemp` would choose. -/
structure Oracle where
  exitOf : List String → Nat
  whichOk : String → Bool
  printedCFlags : List String
  printedLdFlags : List String
  tempDir : String

/-! ## Backend flag tables (asl2c.py 235-290) -/

/-- `ac_types_include` (asl2c.py 235-236): present only when the
environment variable `AC_TYPES_DIR` is set and non-empty. -/
def ac_types_include (env : String → Option String) : List String :=
  match env "AC_TYPES_DIR" with
  | some d => if d ≠ "" then ["-I" ++ d ++ "/include"] else []
  | none => []

/-- `sc_types_include` (asl2c.py 238-239). -/
def sc_types_include (env : String → Option String) : List String :=
  match env "SC_TYPES_DIR" with
  | some d => if d ≠ "" then ["-I" ++ d ++ "/include"] else []
  | none => []

/-- The `backend_c_flags` dictionary (asl2c.py 241-247); `none` models a
missing key (`KeyError` on lookup). -/
def backend_c_flags (env : String → Option String) (backend : String) :
    Option (List String) :=
  if backend = "ac" then some (["-DASL_AC"] ++ ac_types_include env)
  else if backend = "c23" then some ["-DASL_C23"]
  else if backend = "interpreter" then some []
  else if backend = "fallback" then some ["-DASL_FALLBACK"]
  else if backend = "sc" then some (["-DASL_SC"] ++ sc_types_include env)
  else none

/-- The `backend_ld_flags` dictionary (asl2c.py 264-270). -/
def backend_ld_flags (backend : String) : Option (List String) :=
  if backend = "ac" then some []
  else if backend = "c23" then some []
  else if backend = "interpreter" then some []
  else if backend = "fallback" then some []
  else if backend = "sc" then some ["-lsystemc"]
  else none

/-- The base C flags computed by `get_c_flags` before the backend lookup
(asl2c.py 250-260): query the installed ASLi, or derive an include path
from the in-tree layout. -/
def c_flags_base (asli : String) (o : Oracle) : List String :=
  if strContains asli "opam" then o.printedCFlags
  else
    let bindir := pyDirname asli
    let rootdir := pyDirname bindir
    ["-I" ++ pyJoin rootdir "lib/asli/runtime_include"]

/-- The subprocess effects of that base-flag computation. -/
def c_flags_base_effects (asli : String) : List Effect :=
  if strContains asli "opam" then [.checkOutput [asli, "--print-c-flags"]]
  else []

/-- `get_c_flags` (asl2c.py 249-262): returns the effect trace and either
the flag list or the uncaught exception. -/
def get_c_flags (asli backend : String) (env : String → Option String)
    (o : Oracle) : List Effect × Except PyError (List String) :=
  (c_flags_base_effects asli,
    match backend_c_flags env backend with
    | some fl => .ok (c_flags_base asli o ++ fl)
    | none => .error (.keyError backend))

/-- The base linker flags computed by `get_ld_flags` before the sc check
and backend lookup (asl2c.py 273-283). -/
def ld_flags_base (asli : String) (o : Oracle) : List String :=
  if strContains asli "opam" then o.printedLdFlags
  else
    let bindir := pyDirname asli
    let rootdir := pyDirname bindir
    [pyJoin rootdir "lib/asli/runtime/libASL.a"]

/-- The subprocess effects of that base linker-flag computation. -/
def ld_flags_base_effects (asli : String) : List Effect :=
  if strContains asli "opam" then [.checkOutput [asli, "--print-ld-flags"]]
  else []

/-- `get_ld_flags` (asl2c.py 272-290): for the `sc` backend an absent or
empty `SC_TYPES_DIR` raises `EnvironmentError`; afterwards the
`backend_ld_flags` lookup may raise `KeyError`. -/
def get_ld_flags (asli backend : String) (env : String → Option String)
    (o : Oracle) : List Effect × Except PyError (List String) :=
  (ld_flags_base_effects asli,
    let base := ld_flags_base asli o
    if backend = "sc" then
      match env "SC_TYPES_DIR" with
      | some d =>
        if d ≠ "" then
          match backend_ld_flags backend with
          | some fl => .ok (base ++ ["-L" ++ d ++ "/lib"] ++ fl)
          | none => .error (.keyError backend)
        else .error (.environmentError
            "SC_TYPES_DIR environment variable must be set for SystemC backend")
      | none => .error (.environmentError
          "SC_TYPES_DIR environment variable must be set for SystemC backend")
    else
      match backend_ld_flags backend with
      | some fl => .ok (base ++ fl)
      | none => .error (.keyError backend))

/-- The choices accepted by `--backend` (asl2c.py 516). -/
def backend_choices : List String :=
  ["ac", "c23", "interpreter", "fallback", "mlir", "sc"]

/-- The backends registered in both flag dictionaries (the keys of
`backend_c_flags`, asl2c.py 241-247, which coincide with the keys of
`backend_ld_flags`). -/
def registered_backends : List String :=
  ["ac", "c23", "interpreter", "fallback", "sc"]

/-! ## Script generation (`mk_script`, asl2c.py 296-376) -/

/-- The `backend_generator` dictionary built inside `mk_script`
(asl2c.py 300-306); `ffi` is the resolved `--new-ffi` fragment.
`none` models a missing key. -/
def backend_generator (ffi backend : String) : Option String :=
  if backend = "ac" then some ("generate_c " ++ ffi ++ " --runtime=ac")
  else if backend = "c23" then some ("generate_c " ++ ffi ++ " --runtime=c23")
  else if backend = "fallback" then
    some ("generate_c " ++ ffi ++ " --runtime=fallback")
  else if backend = "sc" then some ("generate_c " ++ ffi ++ " --runtime=sc")
  else if backend = "mlir" then some "generate_mlir"
  else none

/-- The minimal (`-O0`) script, line by line (asl2c.py 323-332).
`g0` is the raw `backend_generator[args.backend]` entry, which the `-O0`
branch re-reads (it does not use the decorated `generate_c`). -/
def O0_lines (g0 : String) (args : Args) (output_directory : String) :
    List String :=
  [":filter_unlisted_functions imports", ":filter_reachable_from exports"]
  ++ (if args.Obounded then [":xform_bounded"] else [])
  ++ [if args.show_final_asl then ":show --format=raw"
      else ":" ++ g0 ++ " --output-dir=" ++ output_directory
        ++ " --basename=" ++ args.basename ++ " --num-c-files=1"]

/-- `l.split()[0][1:]`: the directive name of a script line that starts
with `":"` (asl2c.py 369). -/
def lineCmd (l : String) : String := strTail ((pySplit l).headD "")

/-- The snapshot directive emitted by the `--intermediates` pass
(asl2c.py 370). -/
def mkShow (p : String) (i : Nat) (cmd : String) : String :=
  ":show --format=raw --output " ++ p ++ "." ++ pyFormat02 i ++ "."
    ++ cmd ++ ".asl"

/-- The `--intermediates` pass (asl2c.py 363-374): before every line that
starts with `":"`, insert a numbered snapshot directive named after that
line's directive; other lines pass through. -/
def addShows (p : String) : Nat → List String → List String
  | _, [] => []
  | i, l :: rest =>
    if startswithColon l then
      mkShow p i (lineCmd l) :: l :: addShows p (i + 1) rest
    else l :: addShows p i rest

/-- The `--new-ffi` fragment (asl2c.py 298): present when building,
running, or when `--new-ffi` was given. -/
def ffi_of (args : Args) : String :=
  if args.build || args.new_ffi then "--new-ffi" else ""

/-- The `--const-ref` / `--generate-cxx` / `--split-state` decorations
appended to the raw generator entry (asl2c.py 309-311). -/
def decorate_generator (args : Args) (g0 : String) : String :=
  let g1 := if args.const_ref ≠ 0 then
      g0 ++ " --const-ref=" ++ Nat.repr args.const_ref else g0
  let g2 := if args.generate_cxx then g1 ++ " --generate-cxx" else g1
  if args.split_state then g2 ++ " --split-state" else g2

/-- The output-location arguments appended to the code-generation
directive (asl2c.py 312-321): file-based for every backend except
`mlir`, which gets a single `--output-file`. -/
def generate_c_of (args : Args) (output_directory g3 : String) : String :=
  if args.backend ≠ "mlir" then
    g3 ++ " --output-dir=" ++ output_directory
      ++ " --basename=" ++ args.basename
      ++ " --num-c-files=" ++ Nat.repr args.num_c_files
      ++ (if args.line_info then " --line-info" else " --no-line-info")
  else g3 ++ " --output-file=" ++ output_directory ++ "/asl.mlir"

/-- The `substitutions` dictionary of `mk_script` in full (non-`-O0`)
mode with `--transform-int-slices` off (asl2c.py 334-359);
`generate_c` is the fully decorated code-generation directive. -/
def full_subs (args : Args) (argv : List String) (generate_c : String) :
    Subs := {
  command := String.intercalate " " argv
  generate_c := generate_c
  suppress_bitslice_xform :=
    if args.backend = "ac" ∨ args.backend = "sc" then "--notransform"
    else ""
  xform_int_bitslices := ""
  track_valid :=
    if args.instrument_unknown then ":xform_valid track-valid" else ""
  wrap_variables := if args.wrap_variables then ":xform_wrap" else ""
  auto_case_split :=
    if args.auto_case_split then "--auto-case-split"
    else "--no-auto-case-split"
  bounded_int := if args.Obounded then ":xform_bounded" else "" }

/-- `mk_script` (asl2c.py 296-376).  `argv` stands for Python's global
`sys.argv`, made an explicit argument.  Returns the script text, or the
uncaught exception: `KeyError` for a backend missing from
`backend_generator`, and `NameError "textwrap"` when
`--transform-int-slices` is set in full mode, because `mk_script` calls
`textwrap.dedent` (asl2c.py 345) but `textwrap` is never imported
(asl2c.py 17-25). -/
def mk_script (args : Args) (argv : List String) (output_directory : String) :
    Except PyError String :=
  match backend_generator (ffi_of args) args.backend with
  | none => .error (.keyError args.backend)
  | some g0 =>
    let generate_c :=
      generate_c_of args output_directory (decorate_generator args g0)
    if args.O0 then
      .ok (joinNL (O0_lines g0 args output_directory))
    else if args.transform_int_slices then
      .error (.nameError "textwrap")
    else
      let script := base_script (full_subs args argv generate_c)
      match args.intermediates with
      | some p =>
        if p ≠ "" then .ok (joinNL (addShows p 0 (splitlines script)))
        else .ok script
      | none => .ok script

/-- The directive stages of a script: its lines that start with `":"`. -/
def directives (script : String) : List String :=
  (splitlines script).filter startswithColon

/-! ## Build orchestration (asl2c.py 382-481, 598-614) -/

/-- The file names derived from the working directory (`mk_filenames`,
asl2c.py 382-392; its `backend` parameter is unused in the source too). -/
structure Filenames where
  project_file : String
  config_file : String
  c_files : List String
  exe_file : String

/-- `mk_filenames` (asl2c.py 382-392). -/
def mk_filenames (backend working_directory basename : String)
    (use_cxx : Bool) : Filenames :=
  let _ := backend
  let suffix := if use_cxx then "cpp" else "c"
  { project_file := working_directory ++ "/asl2c.prj"
    config_file := working_directory ++ "/config.json"
    c_files := [working_directory ++ "/" ++ basename ++ "_exceptions." ++ suffix,
      working_directory ++ "/" ++ basename ++ "_vars." ++ suffix,
      working_directory ++ "/" ++ basename ++ "_funs." ++ suffix]
    exe_file := working_directory ++ "/" ++ basename }

/-- The ASLi command line built by `run_asli` (asl2c.py 409-423). -/
def asli_cmd (asli : String) (args : Args) (project_file : String)
    (configurations : List String) : List String :=
  [asli, "--batchmode", "--nobanner", "--check-call-markers",
    "--check-exception-markers",
    if args.constraint_checks then "--check-constraints"
    else "--no-check-constraints",
    if args.runtime_checks then "--runtime-checks"
    else "--no-runtime-checks"]
  ++ (if args.Obounded then ["--exec=:xform_bounded"] else [])
  ++ ["--project=" ++ project_file]
  ++ configurations.map (fun f => "--configuration=" ++ f)
  ++ args.asl_files

/-- The `which` probe chain of `compile_and_link` (asl2c.py 430-441) when
no `CC` override is set: returns the chosen compiler word list and the
probe subprocesses actually executed. -/
def pick_cc_probe (o : Oracle) (use_cxx : Bool) : List String × List Effect :=
  if o.whichOk "clang-18" then
    (["clang-18"], [.probe ["which", "clang-18"]])
  else if o.whichOk "clang-17" then
    (["clang-17"], [.probe ["which", "clang-18"], .probe ["which", "clang-17"]])
  else if o.whichOk "clang-16" then
    (["clang-16"], [.probe ["which", "clang-18"], .probe ["which", "clang-17"],
      .probe ["which", "clang-16"]])
  else if o.whichOk "clang" then
    (["clang"], [.probe ["which", "clang-18"], .probe ["which", "clang-17"],
      .probe ["which", "clang-16"], .probe ["which", "clang"]])
  else
    ((if use_cxx then ["g++"] else ["gcc"]),
      [.probe ["which", "clang-18"], .probe ["which", "clang-17"],
        .probe ["which", "clang-16"], .probe ["which", "clang"]])

/-- Native-compiler selection (asl2c.py 426-441): an explicit non-empty
`CC` environment override (split on whitespace) takes precedence over the
probe chain. -/
def pick_cc (env : String → Option String) (o : Oracle) (use_cxx : Bool) :
    List String × List Effect :=
  match env "CC" with
  | some cc => if cc ≠ "" then (pySplit cc, []) else pick_cc_probe o use_cxx
  | none => pick_cc_probe o use_cxx

/-- The per-file compile loop over `--extra-c` files (asl2c.py 454-466):
each compile is a `run` call, so the first nonzero exit aborts with that
status; on success the object-file list is returned. -/
def compileExtras (cc : List String) (working_directory : String)
    (o : Oracle) : List String → List Effect × Except Nat (List String)
  | [] => ([], .ok [])
  | f :: rest =>
    let nm := pySplitextRoot (pyBasename f)
    let obj := working_directory ++ "/" ++ nm ++ ".o"
    let cmd := cc ++ ["-I" ++ working_directory, "-c", "-o", obj, f]
    if o.exitOf cmd = 0 then
      let (t, r) := compileExtras cc working_directory o rest
      (.runProc cmd :: t, r.map (fun objs => obj :: objs))
    else ([.runProc cmd], .error (o.exitOf cmd))

/-- `compile_and_link` (asl2c.py 425-473): compiler selection, flag
adjustment, extra-file compiles, and the final compile+link, as an effect
trace plus `some code` on the first failing `run`. -/
def compile_and_link_session (use_cxx : Bool) (c_files extra_c : List String)
    (exe_file working_directory : String) (c_flags ld_flags : List String)
    (env : String → Option String) (o : Oracle) :
    List Effect × Option Nat :=
  let (cc, probeEff) := pick_cc env o use_cxx
  let ld2 := if use_cxx then ld_flags ++ ["-lstdc++"] else ld_flags
  let cf2 := if use_cxx then c_flags ++ ["-std=c++17"]
    else c_flags ++ ["-std=c2x"]
  match compileExtras cc working_directory o extra_c with
  | (t, .error code) => (probeEff ++ t, some code)
  | (t, .ok extra_objs) =>
    let link := cc ++ ["-Wno-parentheses-equality", "-I" ++ working_directory,
      "-o", exe_file] ++ cf2 ++ c_files ++ extra_objs ++ ld2
    if o.exitOf link = 0 then (probeEff ++ t ++ [.runProc link], none)
    else (probeEff ++ t ++ [.runProc link], some (o.exitOf link))

/-- `make_working_dir` (asl2c.py 475-481): a caller-supplied name is
created with parents, otherwise `tempfile.mkdtemp` picks one. -/
def working_dir_of (args : Args) (o : Oracle) : String :=
  if args.working_dir ≠ "" then args.working_dir else o.tempDir

/-- The final cleanup of the main build branch (asl2c.py 614): delete the
workspace unless `--save-temps` was given, then return normally. -/
def finishSession (save_temps : Bool) (wd : String) (t : List Effect) :
    List Effect × SessionResult :=
  if save_temps then (t, .completed)
  else (t ++ [.rmtree wd], .completed)

/-- The `--run` tail of the main build branch (asl2c.py 609-613):
resolve the native flags, compile and link, then execute the produced
binary; `t` is the effect trace accumulated so far.  A `crashed` result
models an uncaught exception from flag resolution. -/
def run_phase (args : Args) (env : String → Option String) (asli : String)
    (o : Oracle) (wd : String) (fns : Filenames) (t : List Effect) :
    List Effect × SessionResult :=
  match get_c_flags asli args.backend env o with
  | (tc, .error e) => (t ++ tc, .crashed e)
  | (tc, .ok cf) =>
    match get_ld_flags asli args.backend env o with
    | (tl, .error e) => (t ++ tc ++ tl, .crashed e)
    | (tl, .ok lf) =>
      match compile_and_link_session args.generate_cxx fns.c_files
          args.extra_c fns.exe_file wd cf lf env o with
      | (tcl, some code) => (t ++ tc ++ tl ++ tcl, .exited code)
      | (tcl, none) =>
        let t3 := t ++ tc ++ tl ++ tcl
        if o.exitOf [fns.exe_file] ≠ 0 then
          (t3 ++ [.runProc [fns.exe_file]],
            .exited (o.exitOf [fns.exe_file]))
        else finishSession args.save_temps wd
          (t3 ++ [.runProc [fns.exe_file]])

/-- The main build/run branch of `main` (asl2c.py 598-614): create the
workspace, generate and persist the script and configuration file, run
ASLi, optionally compile/link and execute, then clean up.  Every `run`
subprocess failure turns into `sys.exit` with the subprocess's status
(asl2c.py 223-229), which skips everything after it — including the
`shutil.rmtree` cleanup. -/
def buildSession (args : Args) (argv : List String)
    (env : String → Option String) (asli : String) (o : Oracle) :
    List Effect × SessionResult :=
  let wd := working_dir_of args o
  let e0 := [Effect.mkWorkspace wd]
  match mk_script args argv wd with
  | .error e => (e0, .crashed e)
  | .ok _script =>
    let fns := mk_filenames args.backend wd args.basename args.generate_cxx
    let e1 := e0 ++ [.writeFile fns.project_file, .writeFile fns.config_file]
    let cmd := asli_cmd asli args fns.project_file
      ([fns.config_file] ++ args.configuration)
    if o.exitOf cmd ≠ 0 then (e1 ++ [.runProc cmd], .exited (o.exitOf cmd))
    else
      let e2 := e1 ++ [.runProc cmd]
      if args.show_final_asl then finishSession args.save_temps wd e2
      else if args.run then run_phase args env asli o wd fns e2
      else finishSession args.save_temps wd e2

/-- The `--print-c-flags` branch of `main` (asl2c.py 556-557). -/
def print_c_flags_session (asli backend : String)
    (env : String → Option String) (o : Oracle) :
    List Effect × SessionResult :=
  match get_c_flags asli backend env o with
  | (t, .ok fl) => (t ++ [.printOut (String.intercalate " " fl)], .completed)
  | (t, .error e) => (t, .crashed e)

/-- The `--print-ld-flags` branch of `main` (asl2c.py 558-559). -/
def print_ld_flags_session (asli backend : String)
    (env : String → Option String) (o : Oracle) :
    List Effect × SessionResult :=
  match get_ld_flags asli backend env o with
  | (t, .ok fl) => (t ++ [.printOut (String.intercalate " " fl)], .completed)
  | (t, .error e) => (t, .crashed e)

/-! ## Spec-side definitions used to compare against claims -/

/-- Follows the spec's words for the diagnostics hook (spec §4.2): a
snapshot directive is interleaved *after* every stage, numbered
sequentially and named after that stage.  Used only to compare the claimed
placement against `addShows`. -/
def spec_addShowsAfter (p : String) : Nat → List String → List String
  | _, [] => []
  | i, l :: rest =>
    if startswithColon l then
      l :: mkShow p i (lineCmd l) :: spec_addShowsAfter p (i + 1) rest
    else l :: spec_addShowsAfter p i rest

/-- The sequence of snapshot lines that `addShows` produces for a given
directive sequence: the `i`-th snapshot is numbered `i` and named after
the `i`-th directive. -/
def numberShows (p : String) : Nat → List String → List String
  | _, [] => []
  | i, d :: rest => mkShow p i (lineCmd d) :: numberShows p (i + 1) rest

/-- Recognizer for the snapshot lines generated with prefix `p`. -/
def isShow (p l : String) : Bool :=
  startswithStr l (":show --format=raw --output " ++ p ++ ".")

/-- Is this effect a subprocess invocation (of any kind)? -/
def isSubprocess : Effect → Bool
  | .runProc _ => true
  | .checkOutput _ => true
  | .probe _ => true
  | _ => false

/-- Is this effect a workspace creation? -/
def isMkWorkspace : Effect → Bool
  | .mkWorkspace _ => true
  | _ => false

/-- Is this effect a workspace deletion? -/
def isRmtree : Effect → Bool
  | .rmtree _ => true
  | _ => false


/-- The number of directive lines in a line list. -/
def countColon (L : List String) : Nat := List.countP startswithColon L

/-! ## Sample inputs used by concrete witnesses and counterexamples -/

/-- An environment with no variables set. -/
def envEmpty : String → Option String := fun _ => none

/-- An oracle whose every subprocess exits with status `c`, with no
compilers on the `PATH`, empty installed-flag output, and a fixed
temporary-directory name. -/
def constOracle (c : Nat) : Oracle :=
  { exitOf := fun _ => c
    whichOk := fun _ => false
    printedCFlags := []
    printedLdFlags := []
    tempDir := "/tmp/asltest.xyz" }

/-- The default configuration: `asl2c.py` with no options. -/
def default_args : Args := {}

/-- The scenario configuration of the spec: backend `c23`, exports
`Reset`/`Step`, eight output files. -/
def c9_args : Args :=
  { backend := "c23", num_c_files := 8, exports := ["Reset", "Step"] }

/-- The default configuration with the minimal pipeline (`-O0`). -/
def o0_args : Args := { O0 := true }

/-- The default configuration with `--intermediates=log`. -/
def inter_args : Args := { intermediates := some "log" }

/-- A build-only session configuration (`--build`, defaults otherwise). -/
def build_args : Args := { build := true }

/-- The full-mode script of the default configuration (command line
`bin/asl2c.py`, output directory `""`). -/
def c4_full_script : String :=
  base_script (full_subs default_args ["bin/asl2c.py"]
    (generate_c_of default_args ""
      (decorate_generator default_args "generate_c  --runtime=c23")))

/-- The minimal-mode (`-O0`) script of the same configuration. -/
def c4_O0_script : String :=
  joinNL (O0_lines "generate_c  --runtime=c23"
    { default_args with O0 := true } "")

/-- The plain full-mode script of the default configuration, as produced
without `--intermediates`. -/
def c6_plain_script : String :=
  base_script (full_subs { default_args with intermediates := none }
    ["bin/asl2c.py"]
    (generate_c_of { default_args with intermediates := none } ""
      (decorate_generator { default_args with intermediates := none }
        "generate_c  --runtime=c23")))

/-- The same script instrumented by `--intermediates=log`. -/
def c6_inter_script : String :=
  joinNL (addShows "log" 0 (splitlines (base_script (full_subs
    { default_args with intermediates := some "log" } ["bin/asl2c.py"]
    (generate_c_of { default_args with intermediates := some "log" } ""
      (decorate_generator { default_args with intermediates := some "log" }
        "generate_c  --runtime=c23"))))))

instance {ε α : Type} [DecidableEq ε] [DecidableEq α] :
    DecidableEq (Except ε α) := fun a b => by
  cases a <;> cases b
  case error.error e₁ e₂ =>
    exact if h : e₁ = e₂ then .isTrue (by rw [h])
      else .isFalse (by intro he; injection he; contradiction)
  case error.ok _ _ => exact .isFalse (fun h => Except.noConfusion h)
  case ok.error _ _ => exact .isFalse (fun h => Except.noConfusion h)
  case ok.ok a₁ a₂ =>
    exact if h : a₁ = a₂ then .isTrue (by rw [h])
      else .isFalse (by intro he; injection he; contradiction)

/-! ## Line-splitting lemmas -/

theorem splitNL_ne_nil (cs : List Char) : splitNL cs ≠ [] := by
  induction cs with
  | nil => simp [splitNL]
  | cons c cs ih =>
    simp only [splitNL]
    split
    · simp
    · rcases h : splitNL cs with _ | ⟨l, ls⟩
      · exact absurd h ih
      · simp [h]

theorem splitNL_cons_not_nl (c : Char) (cs : List Char) (hc : ¬ c = '\n') :
    splitNL (c :: cs) =
      match splitNL cs with
      | [] => [[c]]
      | l :: ls => (c :: l) :: ls := by
  simp [splitNL, hc]

theorem splitNL_append (xs ys : List Char) :
    splitNL (xs ++ '\n' :: ys) = splitNL xs ++ splitNL ys := by
  induction xs with
  | nil => simp [splitNL]
  | cons c cs ih =>
    by_cases hc : c = '\n'
    · subst hc
      simp [splitNL, ih]
    · rcases h : splitNL cs with _ | ⟨l, ls⟩
      · exact absurd h (splitNL_ne_nil cs)
      · rw [List.cons_append, splitNL_cons_not_nl c _ hc, ih, h,
          splitNL_cons_not_nl c cs hc, h]
        simp

theorem splitNL_of_not_mem (cs : List Char) (h : '\n' ∉ cs) : splitNL cs = [cs] := by
  induction cs with
  | nil => simp [splitNL]
  | cons c cs ih =>
    simp only [List.mem_cons, not_or] at h
    have hc : ¬ (c = '\n') := fun hcc => h.1 hcc.symm
    simp only [splitNL, if_neg hc, ih h.2]

theorem splitlines_append_newline (a b : String) :
    splitlines (a ++ "\n" ++ b) = splitlines a ++ splitlines b := by
  unfold splitlines
  have hd : (a ++ "\n" ++ b).data = a.data ++ '\n' :: b.data := by
    rw [String.data_append, String.data_append]
    have hnl : ("\n" : String).data = ['\n'] := rfl
    rw [hnl, List.append_assoc]
    rfl
  rw [hd, splitNL_append, List.map_append]

theorem splitlines_of_noNL (s : String) (h : noNL s) : splitlines s = [s] := by
  unfold splitlines
  rw [splitNL_of_not_mem s.data h]
  rfl

theorem splitlines_joinNL : ∀ (L : List String), L ≠ [] →
    splitlines (joinNL L) = L.flatMap splitlines := by
  intro L
  induction L with
  | nil => intro h; exact absurd rfl h
  | cons s rest ih =>
    intro _
    rcases rest with _ | ⟨t, ts⟩
    · simp [joinNL]
    · have hj : joinNL (s :: t :: ts) = s ++ "\n" ++ joinNL (t :: ts) := rfl
      rw [hj, splitlines_append_newline, ih (by simp)]
      simp

theorem flatMap_splitlines_id (L : List String) (h : ∀ l ∈ L, noNL l) :
    L.flatMap splitlines = L := by
  induction L with
  | nil => simp
  | cons s rest ih =>
    have hs := h s (by simp)
    have hr : ∀ l ∈ rest, noNL l := fun l hl => h l (by simp [hl])
    simp [splitlines_of_noNL s hs, ih hr]

theorem splitlines_joinNL_id (L : List String) (h0 : L ≠ [])
    (h : ∀ l ∈ L, noNL l) : splitlines (joinNL L) = L := by
  rw [splitlines_joinNL L h0, flatMap_splitlines_id L h]

theorem noNL_append (s t : String) (hs : noNL s) (ht : noNL t) : noNL (s ++ t) := by
  unfold noNL at *
  rw [String.data_append]
  simp only [List.mem_append, not_or]
  exact ⟨hs, ht⟩

theorem lineSafe_noNL (s : String) (h : lineSafe s) : noNL s := by
  intro hm
  exact h '\n' hm (by decide)

/-! ## Digits contain no newline -/

theorem digitChar_ne_nl (n : Nat) : Nat.digitChar n ≠ '\n' := by
  rcases Nat.lt_or_ge n 16 with h | h
  · interval_cases n <;> decide
  · have hstar : Nat.digitChar n = '*' := by
      unfold Nat.digitChar
      repeat rw [if_neg (by omega)]
    rw [hstar]
    decide

theorem toDigitsCore_ne_nl (b fuel : Nat) :
    ∀ (n : Nat) (ds : List Char), (∀ c ∈ ds, c ≠ '\n') →
      ∀ c ∈ Nat.toDigitsCore b fuel n ds, c ≠ '\n' := by
  induction fuel with
  | zero => intro n ds h; simpa [Nat.toDigitsCore] using h
  | succ fuel ih =>
    intro n ds h
    simp only [Nat.toDigitsCore]
    split
    · intro c hc
      rcases List.mem_cons.mp hc with rfl | hc'
      · exact digitChar_ne_nl _
      · exact h c hc'
    · refine ih _ _ ?_
      intro c hc
      rcases List.mem_cons.mp hc with rfl | hc'
      · exact digitChar_ne_nl _
      · exact h c hc'

theorem noNL_natRepr (n : Nat) : noNL (Nat.repr n) := by
  intro hm
  have hd : (Nat.repr n).data = Nat.toDigits 10 n := rfl
  rw [hd] at hm
  exact toDigitsCore_ne_nl 10 (n + 1) n [] (by simp) '\n' hm rfl

theorem noNL_pyFormat02 (i : Nat) : noNL (pyFormat02 i) := by
  unfold pyFormat02
  split
  · exact noNL_append _ _ (by decide) (noNL_natRepr i)
  · exact noNL_natRepr i

/-! ## Prefix and first-character lemmas -/

theorem startswithColon_append (s t : String) (h : s.data ≠ []) :
    startswithColon (s ++ t) = startswithColon s := by
  unfold startswithColon
  rw [String.data_append]
  rcases hd : s.data with _ | ⟨c, cs⟩
  · exact absurd hd h
  · simp

theorem startswithColon_append_of (s t : String)
    (h : startswithColon s = true) : startswithColon (s ++ t) = true := by
  have hne : s.data ≠ [] := by
    intro hd
    unfold startswithColon at h
    rw [hd] at h
    exact Bool.noConfusion h
  rw [startswithColon_append s t hne]
  exact h

theorem startswithStr_iff (s pre : String) :
    startswithStr s pre = true ↔ pre.data <+: s.data := by
  unfold startswithStr
  exact List.isPrefixOf_iff_prefix

theorem startswithStr_mono (s p q : String) (hq : q.data <+: p.data)
    (h : startswithStr s p = true) : startswithStr s q = true :=
  (startswithStr_iff s q).mpr (hq.trans ((startswithStr_iff s p).mp h))

theorem prefix_of_prefix_append (pre a b : List Char)
    (hlen : pre.length ≤ a.length) (h : pre <+: a ++ b) : pre <+: a := by
  have h1 := List.prefix_iff_eq_take.mp h
  rw [List.take_append_of_le_length hlen] at h1
  rw [h1]
  exact List.take_prefix _ _

theorem startswithStr_append_left (a b pre : String)
    (hlen : pre.data.length ≤ a.data.length) :
    startswithStr (a ++ b) pre = startswithStr a pre := by
  rw [Bool.eq_iff_iff, startswithStr_iff, startswithStr_iff, String.data_append]
  constructor
  · exact fun h => prefix_of_prefix_append _ _ _ hlen h
  · exact fun h => h.trans (List.prefix_append _ _)

/-! ## Lemmas about `pySplit`, `lineCmd`, `mkShow`, `addShows` -/

theorem wsSplitAux_subset : ∀ (cs acc piece : List Char),
    piece ∈ wsSplitAux cs acc → ∀ c ∈ piece, c ∈ cs ∨ c ∈ acc := by
  intro cs
  induction cs with
  | nil =>
    intro acc piece hp c hc
    unfold wsSplitAux at hp
    split at hp
    · exact absurd hp (List.not_mem_nil piece)
    · rcases List.mem_singleton.mp hp with rfl
      exact Or.inr (List.mem_reverse.mp hc)
  | cons x xs ih =>
    intro acc piece hp c hc
    unfold wsSplitAux at hp
    by_cases hx : pyIsSpace x
    · rw [if_pos hx] at hp
      by_cases ha : acc.isEmpty
      · rw [if_pos ha] at hp
        rcases ih [] piece hp c hc with h | h
        · exact Or.inl (List.mem_cons_of_mem x h)
        · exact absurd h (List.not_mem_nil c)
      · rw [if_neg ha] at hp
        rcases List.mem_cons.mp hp with rfl | hp'
        · exact Or.inr (List.mem_reverse.mp hc)
        · rcases ih [] piece hp' c hc with h | h
          · exact Or.inl (List.mem_cons_of_mem x h)
          · exact absurd h (List.not_mem_nil c)
    · rw [if_neg hx] at hp
      rcases ih (x :: acc) piece hp c hc with h | h
      · exact Or.inl (List.mem_cons_of_mem x h)
      · rcases List.mem_cons.mp h with rfl | h'
        · exact Or.inl (List.mem_cons_self c xs)
        · exact Or.inr h'

theorem noNL_mem_pySplit (s piece : String) (hp : piece ∈ pySplit s)
    (hs : noNL s) : noNL piece := by
  unfold pySplit at hp
  rcases List.mem_map.mp hp with ⟨cs, hcs, rfl⟩
  intro hm
  rcases wsSplitAux_subset s.data [] cs hcs '\n' hm with h | h
  · exact hs h
  · exact List.not_mem_nil _ h

theorem noNL_strTail (s : String) (h : noNL s) : noNL (strTail s) := by
  intro hm
  exact h (List.drop_subset 1 s.data hm)

theorem noNL_lineCmd (l : String) (h : noNL l) : noNL (lineCmd l) := by
  unfold lineCmd
  rcases hp : pySplit l with _ | ⟨x, xs⟩
  · simp only [hp, List.headD_nil]
    intro hm
    exact List.not_mem_nil _ hm
  · simp only [hp, List.headD_cons]
    exact noNL_strTail x (noNL_mem_pySplit l x (by simp [hp]) h)

theorem noNL_mkShow (p cmd : String) (i : Nat) (hp : noNL p)
    (hc : noNL cmd) : noNL (mkShow p i cmd) := by
  unfold mkShow
  apply noNL_append
  · apply noNL_append
    · apply noNL_append
      · apply noNL_append
        · apply noNL_append
          · exact noNL_append _ _ (by decide) hp
          · decide
        · exact noNL_pyFormat02 i
      · decide
    · exact hc
  · decide

theorem startswithColon_mkShow (p cmd : String) (i : Nat) :
    startswithColon (mkShow p i cmd) = true := by
  unfold mkShow
  apply startswithColon_append_of
  apply startswithColon_append_of
  apply startswithColon_append_of
  apply startswithColon_append_of
  apply startswithColon_append_of
  apply startswithColon_append_of
  decide

theorem isShow_mkShow (p cmd : String) (i : Nat) :
    isShow p (mkShow p i cmd) = true := by
  unfold isShow mkShow
  rw [startswithStr_iff]
  simp only [String.data_append, List.append_assoc]
  rw [List.prefix_append_right_inj, List.prefix_append_right_inj]
  exact List.prefix_append _ _

theorem not_isShow_of_not_show (p l : String)
    (h : startswithStr l ":show" = false) : isShow p l = false := by
  rcases hb : isShow p l
  · rfl
  · exfalso
    unfold isShow at hb
    have h5 : (":show" : String).data <+:
        ((":show --format=raw --output " ++ p) ++ ".").data := by
      rw [String.data_append, String.data_append]
      have hpre : (":show" : String).data.isPrefixOf
          (":show --format=raw --output " : String).data = true := by decide
      have := List.isPrefixOf_iff_prefix.mp hpre
      exact (this.trans (List.prefix_append _ _)).trans (List.prefix_append _ _)
    have := startswithStr_mono l _ _ h5 hb
    rw [h] at this
    exact Bool.noConfusion this

theorem countColon_cons (l : String) (ls : List String) :
    countColon (l :: ls) =
      (if startswithColon l then 1 else 0) + countColon ls := by
  simp only [countColon, List.countP_cons]
  omega

theorem countColon_append (A B : List String) :
    countColon (A ++ B) = countColon A + countColon B := by
  simp [countColon, List.countP_append]

theorem addShows_append (p : String) (A : List String) : ∀ (i : Nat) (B : List String),
    addShows p i (A ++ B) = addShows p i A ++ addShows p (i + countColon A) B := by
  induction A with
  | nil => intro i B; simp [addShows, countColon]
  | cons l ls ih =>
    intro i B
    rw [List.cons_append]
    by_cases hl : startswithColon l
    · have h1 : addShows p i (l :: (ls ++ B)) =
          mkShow p i (lineCmd l) :: l :: addShows p (i + 1) (ls ++ B) := by
        simp [addShows, hl]
      have h2 : addShows p i (l :: ls) =
          mkShow p i (lineCmd l) :: l :: addShows p (i + 1) ls := by
        simp [addShows, hl]
      rw [h1, h2, ih (i + 1) B, countColon_cons, if_pos hl]
      have harith : i + 1 + countColon ls = i + (1 + countColon ls) := by omega
      rw [harith]
      simp
    · have h1 : addShows p i (l :: (ls ++ B)) = l :: addShows p i (ls ++ B) := by
        simp [addShows, hl]
      have h2 : addShows p i (l :: ls) = l :: addShows p i ls := by
        simp [addShows, hl]
      rw [h1, h2, ih i B, countColon_cons, if_neg hl]
      simp

theorem addShows_countColon (p : String) (L : List String) : ∀ (i : Nat),
    countColon (addShows p i L) = 2 * countColon L := by
  induction L with
  | nil => intro i; simp [addShows, countColon]
  | cons l ls ih =>
    intro i
    by_cases hl : startswithColon l
    · have h1 : addShows p i (l :: ls) =
          mkShow p i (lineCmd l) :: l :: addShows p (i + 1) ls := by
        simp [addShows, hl]
      rw [h1, countColon_cons, countColon_cons,
        if_pos (startswithColon_mkShow p (lineCmd l) i), if_pos hl,
        countColon_cons, if_pos hl, ih (i + 1)]
      omega
    · have h1 : addShows p i (l :: ls) = l :: addShows p i ls := by
        simp [addShows, hl]
      have hneg : ¬ (startswithColon l = true) := by simp [hl]
      rw [h1, countColon_cons, if_neg hneg, countColon_cons, if_neg hneg, ih i]
      omega

theorem addShows_filter_not_show (p : String) (L : List String)
    (h : ∀ l ∈ L, isShow p l = false) : ∀ (i : Nat),
    (addShows p i L).filter (fun l => !(isShow p l)) = L := by
  induction L with
  | nil => intro i; simp [addShows]
  | cons l ls ih =>
    intro i
    have hl := h l (List.mem_cons_self l ls)
    have hrest : ∀ x ∈ ls, isShow p x = false :=
      fun x hx => h x (List.mem_cons_of_mem l hx)
    by_cases hc : startswithColon l
    · simp [addShows, hc, List.filter, isShow_mkShow, hl, ih hrest (i + 1)]
    · simp [addShows, hc, List.filter, hl, ih hrest i]

theorem addShows_filter_show (p : String) (L : List String)
    (h : ∀ l ∈ L, isShow p l = false) : ∀ (i : Nat),
    (addShows p i L).filter (isShow p) =
      numberShows p i (L.filter startswithColon) := by
  induction L with
  | nil => intro i; simp [addShows, numberShows]
  | cons l ls ih =>
    intro i
    have hl := h l (List.mem_cons_self l ls)
    have hrest : ∀ x ∈ ls, isShow p x = false :=
      fun x hx => h x (List.mem_cons_of_mem l hx)
    by_cases hc : startswithColon l
    · simp [addShows, hc, List.filter, isShow_mkShow, hl, ih hrest (i + 1),
        numberShows]
    · simp [addShows, hc, List.filter, hl, ih hrest i]

theorem addShows_noNL (p : String) (hp : noNL p) (L : List String)
    (h : ∀ l ∈ L, noNL l) : ∀ (i : Nat), ∀ l ∈ addShows p i L, noNL l := by
  induction L with
  | nil => intro i l hl; simp [addShows] at hl
  | cons x xs ih =>
    intro i l hl
    have hx := h x (List.mem_cons_self x xs)
    have hrest : ∀ y ∈ xs, noNL y := fun y hy => h y (List.mem_cons_of_mem x hy)
    by_cases hc : startswithColon x
    · have h1 : addShows p i (x :: xs) =
          mkShow p i (lineCmd x) :: x :: addShows p (i + 1) xs := by
        simp [addShows, hc]
      rw [h1] at hl
      rcases List.mem_cons.mp hl with rfl | hl2
      · exact noNL_mkShow p _ i hp (noNL_lineCmd x hx)
      · rcases List.mem_cons.mp hl2 with rfl | hl3
        · exact hx
        · exact ih hrest (i + 1) l hl3
    · have h1 : addShows p i (x :: xs) = x :: addShows p i xs := by
        simp [addShows, hc]
      rw [h1] at hl
      rcases List.mem_cons.mp hl with rfl | hl2
      · exact hx
      · exact ih hrest i l hl2

theorem addShows_getLast (p : String) (A : List String) (l : String)
    (hc : startswithColon l = true) (i : Nat) :
    (addShows p i (A ++ [l])).getLast? = some l := by
  rw [addShows_append]
  have : addShows p (i + countColon A) [l] =
      [mkShow p (i + countColon A) (lineCmd l), l] := by
    simp [addShows, hc]
  rw [this]
  rw [List.getLast?_append_of_ne_nil _ (by simp)]
  rfl

/-! ## Shape of the generated full-mode script -/

theorem noNL_ite (c : Prop) [Decidable c] (a b : String) (ha : noNL a)
    (hb : noNL b) : noNL (if c then a else b) := by
  split <;> assumption

theorem noNL_base_script_lines (s : Subs) (h1 : noNL s.command)
    (h2 : noNL s.generate_c) (h3 : noNL s.suppress_bitslice_xform)
    (h4 : noNL s.xform_int_bitslices) (h5 : noNL s.track_valid)
    (h6 : noNL s.wrap_variables) (h7 : noNL s.auto_case_split)
    (h8 : noNL s.bounded_int) : ∀ l ∈ base_script_lines s, noNL l := by
  intro l hl
  simp only [base_script_lines, List.append_assoc, List.mem_append,
    List.mem_singleton] at hl
  rcases hl with h|h|h|h|h|h|h|h|h|h|h|h|h|h|h|h|h|h|h
  · exact (by decide : ∀ l ∈ seg1, noNL l) l h
  · subst h; exact noNL_append _ _ (by decide) h1
  · exact (by decide : ∀ l ∈ seg2, noNL l) l h
  · subst h; exact h4
  · exact (by decide : ∀ l ∈ seg3, noNL l) l h
  · subst h; exact h5
  · exact (by decide : ∀ l ∈ seg4, noNL l) l h
  · subst h; exact noNL_append _ _ (by decide) h7
  · exact (by decide : ∀ l ∈ seg5, noNL l) l h
  · subst h; exact noNL_append _ _ (by decide) h7
  · exact (by decide : ∀ l ∈ seg6, noNL l) l h
  · subst h; exact noNL_append _ _ (by decide) h3
  · exact (by decide : ∀ l ∈ seg7, noNL l) l h
  · subst h; exact h6
  · exact (by decide : ∀ l ∈ seg8, noNL l) l h
  · subst h; exact h8
  · exact (by decide : ∀ l ∈ seg9, noNL l) l h
  · subst h; exact noNL_append _ _ (by decide) h2
  · exact (by decide : ∀ l ∈ seg10, noNL l) l h

theorem base_script_lines_ne_nil (s : Subs) : base_script_lines s ≠ [] := by
  unfold base_script_lines seg1
  simp

/-- With newline-free substitution values, splitting the generated script
back into lines recovers exactly the template lines. -/
theorem splitlines_base_script (s : Subs) (h1 : noNL s.command)
    (h2 : noNL s.generate_c) (h3 : noNL s.suppress_bitslice_xform)
    (h4 : noNL s.xform_int_bitslices) (h5 : noNL s.track_valid)
    (h6 : noNL s.wrap_variables) (h7 : noNL s.auto_case_split)
    (h8 : noNL s.bounded_int) :
    splitlines (base_script s) = base_script_lines s :=
  splitlines_joinNL_id _ (base_script_lines_ne_nil s)
    (noNL_base_script_lines s h1 h2 h3 h4 h5 h6 h7 h8)

/-- The directive lines of the (unsplit) template, for any substitution
record whose `xform_int_bitslices` slot is empty (as in every full-mode
run that does not crash). -/
theorem filter_base_script_lines (s : Subs)
    (hx : s.xform_int_bitslices = "") :
    (base_script_lines s).filter startswithColon =
    [":filter_reachable_from --keep-builtins exports",
      ":xform_named_type", ":xform_desugar", ":xform_bittuples",
      ":xform_lower", ":xform_getset"]
    ++ (if startswithColon s.track_valid then [s.track_valid] else [])
    ++ [":xform_constprop --nounroll",
      ":xform_monomorphize " ++ s.auto_case_split,
      ":filter_reachable_from --keep-builtins exports",
      ":xform_monomorphize " ++ s.auto_case_split,
      ":xform_tuples", ":xform_getset", ":xform_bittuples",
      ":xform_hoist_lets",
      ":xform_bitslices " ++ s.suppress_bitslice_xform,
      ":xform_case"]
    ++ (if startswithColon s.wrap_variables then [s.wrap_variables] else [])
    ++ [":xform_constprop --nounroll"]
    ++ (if startswithColon s.bounded_int then [s.bounded_int] else [])
    ++ [":filter_unlisted_functions imports",
      ":filter_reachable_from exports",
      ":check_monomorphization --fatal --verbose",
      ":" ++ s.generate_c, ":quit"] := by
  unfold base_script_lines
  rw [hx]
  simp only [List.filter_append, List.filter_singleton]
  rw [(by decide : seg1.filter startswithColon = []),
    (by decide : seg2.filter startswithColon =
      [":filter_reachable_from --keep-builtins exports", ":xform_named_type",
        ":xform_desugar", ":xform_bittuples", ":xform_lower"]),
    (by decide : seg3.filter startswithColon = [":xform_getset"]),
    (by decide : seg4.filter startswithColon = [":xform_constprop --nounroll"]),
    (by decide : seg5.filter startswithColon =
      [":filter_reachable_from --keep-builtins exports"]),
    (by decide : seg6.filter startswithColon =
      [":xform_tuples", ":xform_getset", ":xform_bittuples",
        ":xform_hoist_lets"]),
    (by decide : seg7.filter startswithColon = [":xform_case"]),
    (by decide : seg8.filter startswithColon = [":xform_constprop --nounroll"]),
    (by decide : seg9.filter startswithColon =
      [":filter_unlisted_functions imports", ":filter_reachable_from exports",
        ":check_monomorphization --fatal --verbose"]),
    (by decide : seg10.filter startswithColon = [":quit"]),
    startswithColon_append "// Generated by command: " s.command (by decide),
    startswithColon_append ":xform_monomorphize " s.auto_case_split (by decide),
    startswithColon_append ":xform_bitslices " s.suppress_bitslice_xform
      (by decide),
    startswithColon_append ":" s.generate_c (by decide)]
  rw [(by decide : startswithColon "// Generated by command: " = false),
    (by decide : startswithColon ":xform_monomorphize " = true),
    (by decide : startswithColon ":xform_bitslices " = true),
    (by decide : startswithColon ":" = true),
    (by decide : startswithColon "" = false)]
  simp [Bool.cond_eq_ite]

theorem noNL_ffi_of (args : Args) : noNL (ffi_of args) := by
  unfold ffi_of
  split <;> decide

theorem noNL_backend_generator (ffi b g : String) (hffi : noNL ffi)
    (h : backend_generator ffi b = some g) : noNL g := by
  unfold backend_generator at h
  split_ifs at h
  all_goals try (injection h with h; subst h)
  all_goals
    first
    | exact noNL_append _ _ (noNL_append _ _ (by decide) hffi) (by decide)
    | decide

theorem noNL_decorate_generator (args : Args) (g0 : String) (h : noNL g0) :
    noNL (decorate_generator args g0) := by
  unfold decorate_generator
  set g1 := if args.const_ref ≠ 0 then
      g0 ++ " --const-ref=" ++ Nat.repr args.const_ref else g0 with hg1
  set g2 := if args.generate_cxx then g1 ++ " --generate-cxx" else g1 with hg2
  have h1 : noNL g1 := by
    rw [hg1]
    exact noNL_ite _ _ _
      (noNL_append _ _ (noNL_append _ _ h (by decide)) (noNL_natRepr _)) h
  have h2 : noNL g2 := by
    rw [hg2]
    exact noNL_ite _ _ _ (noNL_append _ _ h1 (by decide)) h1
  exact noNL_ite _ _ _ (noNL_append _ _ h2 (by decide)) h2

theorem noNL_generate_c_of (args : Args) (od g3 : String) (hod : noNL od)
    (hb : noNL args.basename) (h3 : noNL g3) :
    noNL (generate_c_of args od g3) := by
  unfold generate_c_of
  apply noNL_ite
  · apply noNL_append
    · apply noNL_append
      · apply noNL_append
        · apply noNL_append
          · apply noNL_append
            · apply noNL_append
              · exact noNL_append _ _ h3 (by decide)
              · exact hod
            · decide
          · exact hb
        · decide
      · exact noNL_natRepr _
    · apply noNL_ite <;> decide
  · exact noNL_append _ _ (noNL_append _ _ (noNL_append _ _ h3 (by decide))
      hod) (by decide)

theorem splitlines_full_script (args : Args) (argv : List String)
    (generate_c : String) (hcmd : noNL (String.intercalate " " argv))
    (hgen : noNL generate_c) :
    splitlines (base_script (full_subs args argv generate_c)) =
      base_script_lines (full_subs args argv generate_c) := by
  refine splitlines_base_script _ ?_ ?_ ?_ ?_ ?_ ?_ ?_ ?_
  · exact hcmd
  · exact hgen
  · show noNL (if args.backend = "ac" ∨ args.backend = "sc" then
      "--notransform" else "")
    exact noNL_ite _ _ _ (by decide) (by decide)
  · show noNL ""
    decide
  · show noNL (if args.instrument_unknown then ":xform_valid track-valid"
      else "")
    exact noNL_ite _ _ _ (by decide) (by decide)
  · show noNL (if args.wrap_variables then ":xform_wrap" else "")
    exact noNL_ite _ _ _ (by decide) (by decide)
  · show noNL (if args.auto_case_split then "--auto-case-split"
      else "--no-auto-case-split")
    exact noNL_ite _ _ _ (by decide) (by decide)
  · show noNL (if args.Obounded then ":xform_bounded" else "")
    exact noNL_ite _ _ _ (by decide) (by decide)

theorem mk_script_full_none (args : Args) (argv : List String) (od g0 : String)
    (hg : backend_generator (ffi_of args) args.backend = some g0)
    (hO0 : args.O0 = false) (htis : args.transform_int_slices = false)
    (hint : args.intermediates = none) :
    mk_script args argv od = .ok (base_script (full_subs args argv
      (generate_c_of args od (decorate_generator args g0)))) := by
  unfold mk_script
  rw [hg, hO0, htis, hint]
  simp

theorem mk_script_full_inter (args : Args) (argv : List String)
    (od g0 p : String)
    (hg : backend_generator (ffi_of args) args.backend = some g0)
    (hO0 : args.O0 = false) (htis : args.transform_int_slices = false)
    (hint : args.intermediates = some p) (hp : p ≠ "") :
    mk_script args argv od = .ok (joinNL (addShows p 0 (splitlines
      (base_script (full_subs args argv
        (generate_c_of args od (decorate_generator args g0))))))) := by
  unfold mk_script
  rw [hg, hO0, htis, hint]
  simp [hp]

theorem mk_script_O0_eq (args : Args) (argv : List String) (od g0 : String)
    (hg : backend_generator (ffi_of args) args.backend = some g0)
    (hO0 : args.O0 = true) :
    mk_script args argv od = .ok (joinNL (O0_lines g0 args od)) := by
  unfold mk_script
  rw [hg, hO0]
  simp

/-! ## Directive counts -/

theorem countColon_full_lines (args : Args) (argv : List String) (g : String) :
    countColon (base_script_lines (full_subs args argv g)) =
      22 + (if args.instrument_unknown then 1 else 0)
        + (if args.wrap_variables then 1 else 0)
        + (if args.Obounded then 1 else 0) := by
  rw [countColon, List.countP_eq_length_filter,
    filter_base_script_lines _ (by rfl)]
  cases hiu : args.instrument_unknown <;> cases hwv : args.wrap_variables <;>
    cases hob : args.Obounded <;>
    simp [full_subs, hiu, hwv, hob,
      (by decide : startswithColon ":xform_valid track-valid" = true),
      (by decide : startswithColon ":xform_wrap" = true),
      (by decide : startswithColon ":xform_bounded" = true),
      (by decide : startswithColon "" = false)]

theorem O0_lines_all_colon (g0 : String) (args : Args) (od : String) :
    ∀ l ∈ O0_lines g0 args od, startswithColon l = true := by
  intro l hl
  unfold O0_lines at hl
  by_cases hob : args.Obounded = true
  · rw [if_pos hob] at hl
    simp only [List.append_assoc, List.mem_append, List.mem_cons,
      List.mem_singleton, List.not_mem_nil, or_false, false_or] at hl
    rcases hl with (rfl | rfl) | rfl | rfl
    · decide
    · decide
    · decide
    · split
      · decide
      · exact startswithColon_append_of ":" _ (by decide)
  · rw [if_neg hob] at hl
    simp only [List.append_assoc, List.nil_append, List.mem_append,
      List.mem_cons, List.mem_singleton, List.not_mem_nil, or_false,
      false_or] at hl
    rcases hl with (rfl | rfl) | rfl
    · decide
    · decide
    · split
      · decide
      · exact startswithColon_append_of ":" _ (by decide)

theorem O0_lines_length (g0 : String) (args : Args) (od : String) :
    (O0_lines g0 args od).length = 3 + (if args.Obounded then 1 else 0) := by
  unfold O0_lines
  cases hob : args.Obounded <;> simp [hob]

theorem countColon_O0_lines (g0 : String) (args : Args) (od : String) :
    countColon (O0_lines g0 args od) = 3 + (if args.Obounded then 1 else 0) := by
  have hall := O0_lines_all_colon g0 args od
  have : (O0_lines g0 args od).filter startswithColon = O0_lines g0 args od :=
    List.filter_eq_self.mpr hall
  rw [countColon, List.countP_eq_length_filter, this, O0_lines_length]

theorem noNL_O0_last (g0 : String) (args : Args) (od : String)
    (hg : noNL g0) (hod : noNL od) (hb : noNL args.basename) :
    noNL (if args.show_final_asl then ":show --format=raw"
      else ":" ++ g0 ++ " --output-dir=" ++ od ++ " --basename="
        ++ args.basename ++ " --num-c-files=1") := by
  split
  · decide
  · refine noNL_append _ _ (noNL_append _ _ (noNL_append _ _ (noNL_append _ _
      (noNL_append _ _ (noNL_append _ _ (by decide) hg) (by decide)) hod)
      (by decide)) hb) (by decide)

theorem noNL_O0_lines (g0 : String) (args : Args) (od : String)
    (hg : noNL g0) (hod : noNL od) (hb : noNL args.basename) :
    ∀ l ∈ O0_lines g0 args od, noNL l := by
  intro l hl
  unfold O0_lines at hl
  by_cases hob : args.Obounded = true
  · rw [if_pos hob] at hl
    simp only [List.append_assoc, List.mem_append, List.mem_cons,
      List.mem_singleton, List.not_mem_nil, or_false, false_or] at hl
    rcases hl with (rfl | rfl) | rfl | rfl
    · decide
    · decide
    · decide
    · exact noNL_O0_last g0 args od hg hod hb
  · rw [if_neg hob] at hl
    simp only [List.append_assoc, List.nil_append, List.mem_append,
      List.mem_cons, List.mem_singleton, List.not_mem_nil, or_false,
      false_or] at hl
    rcases hl with (rfl | rfl) | rfl
    · decide
    · decide
    · exact noNL_O0_last g0 args od hg hod hb

theorem O0_lines_ne_nil (g0 : String) (args : Args) (od : String) :
    O0_lines g0 args od ≠ [] := by
  intro h
  have := congrArg List.length h
  rw [O0_lines_length] at this
  simp at this

theorem splitlines_O0 (g0 : String) (args : Args) (od : String)
    (hg : noNL g0) (hod : noNL od) (hb : noNL args.basename) :
    splitlines (joinNL (O0_lines g0 args od)) = O0_lines g0 args od :=
  splitlines_joinNL_id _ (O0_lines_ne_nil g0 args od)
    (noNL_O0_lines g0 args od hg hod hb)

theorem addShows_ne_nil (p : String) (i : Nat) (L : List String)
    (h : L ≠ []) : addShows p i L ≠ [] := by
  rcases L with _ | ⟨l, ls⟩
  · exact absurd rfl h
  · unfold addShows
    split <;> simp

/-! ## Trace shape of the print-flags sessions -/

theorem print_c_flags_session_trace (asli backend : String)
    (env : String → Option String) (o : Oracle) :
    (print_c_flags_session asli backend env o).1 =
      c_flags_base_effects asli ++
        (match (get_c_flags asli backend env o).2 with
          | .ok fl => [Effect.printOut (String.intercalate " " fl)]
          | .error _ => []) := by
  rcases hbc : backend_c_flags env backend with _ | fl
  · simp [print_c_flags_session, get_c_flags, hbc]
  · simp [print_c_flags_session, get_c_flags, hbc]

theorem print_ld_flags_session_trace (asli backend : String)
    (env : String → Option String) (o : Oracle) :
    (print_ld_flags_session asli backend env o).1 =
      ld_flags_base_effects asli ++
        (match (get_ld_flags asli backend env o).2 with
          | .ok fl => [Effect.printOut (String.intercalate " " fl)]
          | .error _ => []) := by
  unfold print_ld_flags_session
  rcases hE : (get_ld_flags asli backend env o).2 with e | fl
  · rw [show get_ld_flags asli backend env o =
        (ld_flags_base_effects asli, (get_ld_flags asli backend env o).2)
      from rfl, hE]
    try simp
  · rw [show get_ld_flags asli backend env o =
        (ld_flags_base_effects asli, (get_ld_flags asli backend env o).2)
      from rfl, hE]
    try simp

/-! ## Claim C2 -/

/-- C2: the claim says that with the transform-integer-slices flag enabled
(and minimal mode off) `mk_script` returns a script with an
`xform_int_bitslices` stage before the first constant-propagation stage.
In fact the code cannot produce any script on such a configuration: the
`--transform-int-slices` branch of `mk_script` calls `textwrap.dedent`
(asl2c.py 345) but the module never imports `textwrap` (asl2c.py 17-25),
so Python raises `NameError: name 'textwrap' is not defined`.  This
theorem evaluates the embedded `mk_script` at such a configuration. -/
theorem C2_transform_int_slices_raises_name_error :
    mk_script { transform_int_slices := true }
      ["bin/asl2c.py", "--transform-int-slices"] "" =
      .error (.nameError "textwrap") := by
  decide

/-! ## Claim C8 -/

/-- C8: `mk_script` is deterministic — two calls with identical argument
record, command line (`sys.argv`), and output directory yield byte-identical
script text.  In the embedding every input of `mk_script` is explicit
(the Python global `sys.argv` is the `argv` parameter; nothing else is
read), so determinism is equality of outputs under equality of inputs. -/
theorem C8_mk_script_deterministic (a₁ a₂ : Args) (argv₁ argv₂ : List String)
    (od₁ od₂ : String) (ha : a₁ = a₂) (hargv : argv₁ = argv₂)
    (hod : od₁ = od₂) : mk_script a₁ argv₁ od₁ = mk_script a₂ argv₂ od₂ := by
  subst ha hargv hod
  rfl

/-- Witness for C8 at a concrete configuration. -/
theorem C8_mk_script_deterministic_witness :
    mk_script { num_c_files := 4 } ["bin/asl2c.py", "--num-c-files=4"] "genc" =
      mk_script { num_c_files := 4 } ["bin/asl2c.py", "--num-c-files=4"] "genc" :=
  C8_mk_script_deterministic { num_c_files := 4 } { num_c_files := 4 }
    ["bin/asl2c.py", "--num-c-files=4"] ["bin/asl2c.py", "--num-c-files=4"]
    "genc" "genc" rfl rfl rfl

/-! ## Claim C10 -/

/-- C10: `mlir` is an accepted `--backend` choice (asl2c.py 516), usable
with `--print-c-flags`/`--print-ld-flags`, but it is a key of neither
`backend_c_flags` (asl2c.py 241-247) nor `backend_ld_flags`
(asl2c.py 264-270), so both print-flags requests crash with an unhandled
`KeyError` rather than printing flags or reporting an unknown backend. -/
theorem C10_mlir_print_flags_key_error :
    "mlir" ∈ backend_choices
    ∧ backend_c_flags envEmpty "mlir" = none
    ∧ backend_ld_flags "mlir" = none
    ∧ print_c_flags_session "bin/asli" "mlir" envEmpty (constOracle 0) =
        ([], .crashed (.keyError "mlir"))
    ∧ print_ld_flags_session "bin/asli" "mlir" envEmpty (constOracle 0) =
        ([], .crashed (.keyError "mlir")) := by
  refine ⟨by decide, by decide, by decide, by decide, by decide⟩

/-! ## Claim C7 -/

/-- C7 counterexample: the claim says the C-flags and linker-flags lookups
of both `ac` and `sc` fail with an environment error when the needed
environment path is absent.  In fact, with no environment variables set,
the `ac` and `sc` C-flags lookups succeed and silently omit the include
flag, and the `ac` linker-flags lookup succeeds without consulting the
environment at all; only the `sc` linker-flags lookup raises. -/
theorem C7_cex_ac_c_flags_silently_succeed :
    (get_c_flags "/repo/bin/asli" "ac" envEmpty (constOracle 0)).2 =
      .ok ["-I/repo/lib/asli/runtime_include", "-DASL_AC"]
    ∧ (get_c_flags "/repo/bin/asli" "sc" envEmpty (constOracle 0)).2 =
        .ok ["-I/repo/lib/asli/runtime_include", "-DASL_SC"]
    ∧ (get_ld_flags "/repo/bin/asli" "ac" envEmpty (constOracle 0)).2 =
        .ok ["/repo/lib/asli/runtime/libASL.a"] := by
  refine ⟨by decide, by decide, by decide⟩

/-- C7 (amended): only the `sc` linker-flags lookup fails with an
`EnvironmentError` when `SC_TYPES_DIR` is absent; the `ac`/`sc` C-flags
lookups silently omit the `-I$…/include` flag when `AC_TYPES_DIR` /
`SC_TYPES_DIR` are absent, and the `ac` linker-flags lookup reads no
environment path. -/
theorem C7_amended_env_flags (asli : String) (env : String → Option String)
    (o : Oracle) (hsc : env "SC_TYPES_DIR" = none)
    (hac : env "AC_TYPES_DIR" = none) :
    (get_ld_flags asli "sc" env o).2 = .error (.environmentError
        "SC_TYPES_DIR environment variable must be set for SystemC backend")
    ∧ (get_c_flags asli "ac" env o).2 =
        .ok (c_flags_base asli o ++ ["-DASL_AC"])
    ∧ (get_c_flags asli "sc" env o).2 =
        .ok (c_flags_base asli o ++ ["-DASL_SC"])
    ∧ (get_ld_flags asli "ac" env o).2 = .ok (ld_flags_base asli o) := by
  refine ⟨?_, ?_, ?_, ?_⟩
  · simp [get_ld_flags, hsc]
  · simp [get_c_flags, backend_c_flags, ac_types_include, hac]
  · simp [get_c_flags, backend_c_flags, sc_types_include, hsc]
  · simp [get_ld_flags, backend_ld_flags]

/-- Witness for C7 (amended) with the empty environment. -/
theorem C7_amended_env_flags_witness :
    envEmpty "SC_TYPES_DIR" = none ∧ envEmpty "AC_TYPES_DIR" = none
    ∧ ((get_ld_flags "bin/asli" "sc" envEmpty (constOracle 0)).2 =
        .error (.environmentError
          "SC_TYPES_DIR environment variable must be set for SystemC backend")
      ∧ (get_c_flags "bin/asli" "ac" envEmpty (constOracle 0)).2 =
          .ok (c_flags_base "bin/asli" (constOracle 0) ++ ["-DASL_AC"])
      ∧ (get_c_flags "bin/asli" "sc" envEmpty (constOracle 0)).2 =
          .ok (c_flags_base "bin/asli" (constOracle 0) ++ ["-DASL_SC"])
      ∧ (get_ld_flags "bin/asli" "ac" envEmpty (constOracle 0)).2 =
          .ok (ld_flags_base "bin/asli" (constOracle 0))) :=
  ⟨rfl, rfl, C7_amended_env_flags "bin/asli" envEmpty (constOracle 0) rfl rfl⟩

/-! ## Claim C3 -/

/-- C3 counterexample: the claim says a print-flags request never invokes
any subprocess, for every registered backend.  But when the driver's own
path contains `opam` (an installed ASLi, e.g.
`/home/user/.opam/default/bin/asli`), `get_c_flags` queries ASLi itself
with `subprocess.check_output` (asl2c.py 250-252), so a subprocess is
invoked — here for the registered backend `c23`. -/
theorem C3_cex_print_flags_spawns_subprocess :
    "c23" ∈ registered_backends
    ∧ (print_c_flags_session "/home/user/.opam/default/bin/asli" "c23"
        envEmpty (constOracle 0)).1.any isSubprocess = true := by
  refine ⟨by decide, by decide⟩

/-- C3 (amended): a print-flags request never creates (or deletes) a
Session Workspace; it invokes no subprocess when the driver runs from a
build tree (path without `opam`); when the driver is an installed (opam)
build, it invokes exactly one subprocess per request — the flags query of
the external compiler itself. -/
theorem C3_amended_print_flags_frame (backend : String)
    (hb : backend ∈ registered_backends) (env : String → Option String)
    (asli : String) (o : Oracle) :
    ((print_c_flags_session asli backend env o).1
        ++ (print_ld_flags_session asli backend env o).1).all
      (fun e => !(isMkWorkspace e || isRmtree e)) = true
    ∧ (strContains asli "opam" = false →
        ((print_c_flags_session asli backend env o).1
            ++ (print_ld_flags_session asli backend env o).1).all
          (fun e => !(isSubprocess e)) = true)
    ∧ (strContains asli "opam" = true →
        ((print_c_flags_session asli backend env o).1
            ++ (print_ld_flags_session asli backend env o).1).filter
          isSubprocess =
          [.checkOutput [asli, "--print-c-flags"],
            .checkOutput [asli, "--print-ld-flags"]]) := by
  have _ := hb
  rw [print_c_flags_session_trace, print_ld_flags_session_trace]
  unfold c_flags_base_effects ld_flags_base_effects
  refine ⟨?_, ?_, ?_⟩
  · rcases (get_c_flags asli backend env o).2 with e | fl <;>
      rcases (get_ld_flags asli backend env o).2 with e' | fl' <;>
      by_cases hop : strContains asli "opam" = true <;>
      simp [hop, isMkWorkspace, isRmtree]
  · intro hop
    rcases (get_c_flags asli backend env o).2 with e | fl <;>
      rcases (get_ld_flags asli backend env o).2 with e' | fl' <;>
      simp [hop, isSubprocess]
  · intro hop
    rcases (get_c_flags asli backend env o).2 with e | fl <;>
      rcases (get_ld_flags asli backend env o).2 with e' | fl' <;>
      simp [hop, isSubprocess]

/-- Witness for C3 (amended) for the registered backend `c23` with an
in-tree driver path. -/
theorem C3_amended_print_flags_frame_witness :
    "c23" ∈ registered_backends
    ∧ (((print_c_flags_session "bin/asli" "c23" envEmpty (constOracle 0)).1
          ++ (print_ld_flags_session "bin/asli" "c23" envEmpty
              (constOracle 0)).1).all
        (fun e => !(isMkWorkspace e || isRmtree e)) = true
      ∧ (strContains "bin/asli" "opam" = false →
          (((print_c_flags_session "bin/asli" "c23" envEmpty
                (constOracle 0)).1
              ++ (print_ld_flags_session "bin/asli" "c23" envEmpty
                  (constOracle 0)).1).all
            (fun e => !(isSubprocess e)) = true))
      ∧ (strContains "bin/asli" "opam" = true →
          (((print_c_flags_session "bin/asli" "c23" envEmpty
                (constOracle 0)).1
              ++ (print_ld_flags_session "bin/asli" "c23" envEmpty
                  (constOracle 0)).1).filter isSubprocess =
            [.checkOutput ["bin/asli", "--print-c-flags"],
              .checkOutput ["bin/asli", "--print-ld-flags"]]))) :=
  ⟨by decide, C3_amended_print_flags_frame "c23" (by decide) envEmpty
    "bin/asli" (constOracle 0)⟩

/-! ## Claim C9 -/

/-- C9: for backend `c23` with `--num-c-files=8` in full mode, the
generated script has exactly one code-generation stage, that stage
encodes `c23` (via `--runtime=c23`) and carries `--num-c-files=8`, and
the specialization stage `xform_monomorphize` occurs exactly twice. -/
theorem C9_c23_eight_files_script_shape :
    ∃ s, mk_script c9_args ["bin/asl2c.py", "--num-c-files=8"] "" = .ok s
      ∧ ((directives s).filter
          (fun l => startswithStr ((pySplit l).headD "") ":generate_")).length
          = 1
      ∧ (∀ l ∈ directives s,
          startswithStr ((pySplit l).headD "") ":generate_" = true →
            strContains l "--runtime=c23" = true
            ∧ strContains l "--num-c-files=8" = true)
      ∧ ((directives s).filter
          (fun l => (pySplit l).headD "" = ":xform_monomorphize")).length
          = 2 := by
  refine ⟨_, mk_script_full_none c9_args _ _ "generate_c  --runtime=c23"
    (by decide) rfl rfl rfl, ?_, ?_, ?_⟩ <;>
  · unfold directives
    rw [splitlines_full_script _ _ _ (by decide) (by decide)]
    decide

/-! ## Claim C5 -/

/-- C5 counterexample: the claim says every generated script ends with a
quit directive, in both modes.  The minimal (`-O0`) script for the
default configuration has no quit directive at all: its last line is the
code-generation directive. -/
theorem C5_cex_O0_script_has_no_quit :
    (mk_script o0_args ["bin/asl2c.py", "-O0"] "").map
        (fun s => (splitlines s).getLast?) =
      .ok (some
        ":generate_c  --runtime=c23 --output-dir= --basename=asl --num-c-files=1")
    ∧ (mk_script o0_args ["bin/asl2c.py", "-O0"] "").map
        (fun s => decide (":quit" ∈ splitlines s)) = .ok false
    ∧ (some
        ":generate_c  --runtime=c23 --output-dir= --basename=asl --num-c-files=1"
        ≠ some ":quit") := by
  refine ⟨by decide, by decide, by decide⟩

theorem backend_generator_head (ffi b g : String)
    (h : backend_generator ffi b = some g) : headChar g = some 'g' := by
  unfold backend_generator at h
  split_ifs at h
  all_goals try (injection h with h; subst h)
  all_goals
    first
    | decide
    | (unfold headChar
       rw [String.data_append, String.data_append, List.head?_append,
         List.head?_append,
         (by decide : ("generate_c " : String).data.head? = some 'g')]
       rfl)

theorem ne_quit_of_take_two (s : String) (h : s.data.take 2 = [':', 'g']) :
    s ≠ ":quit" := by
  intro he
  rw [he] at h
  exact absurd h (by decide)

theorem gen_line_take_two (g0 a b c d e : String)
    (hg : headChar g0 = some 'g') :
    ((":" ++ g0 ++ a ++ b ++ c ++ d ++ e) : String).data.take 2 =
      [':', 'g'] := by
  obtain ⟨t, hg0⟩ : ∃ t, g0.data = 'g' :: t := by
    rcases hgd : g0.data with _ | ⟨ch, t⟩
    · unfold headChar at hg
      rw [hgd] at hg
      exact absurd hg (by decide)
    · unfold headChar at hg
      rw [hgd] at hg
      simp only [List.head?_cons, Option.some.injEq] at hg
      exact ⟨t, by rw [hg]⟩
  simp [String.data_append, hg0]

theorem base_script_lines_concat_quit (s : Subs) :
    ∃ A, base_script_lines s = A ++ [":quit"] := by
  refine ⟨seg1 ++ ["// Generated by command: " ++ s.command] ++ seg2
    ++ [s.xform_int_bitslices] ++ seg3 ++ [s.track_valid] ++ seg4
    ++ [":xform_monomorphize " ++ s.auto_case_split] ++ seg5
    ++ [":xform_monomorphize " ++ s.auto_case_split] ++ seg6
    ++ [":xform_bitslices " ++ s.suppress_bitslice_xform] ++ seg7
    ++ [s.wrap_variables] ++ seg8 ++ [s.bounded_int] ++ seg9
    ++ [":" ++ s.generate_c] ++ [""], ?_⟩
  simp [base_script_lines, seg10, List.append_assoc]

theorem filter_addShows_concat (p : String) (A : List String) (l : String)
    (hc : startswithColon l = true) (i : Nat) :
    (List.filter startswithColon (addShows p i (A ++ [l]))).getLast? =
      some l := by
  rw [addShows_append]
  have h2 : addShows p (i + countColon A) [l] =
      [mkShow p (i + countColon A) (lineCmd l), l] := by
    simp [addShows, hc]
  rw [h2, List.filter_append]
  have h3 : List.filter startswithColon
      [mkShow p (i + countColon A) (lineCmd l), l] =
      [mkShow p (i + countColon A) (lineCmd l), l] := by
    simp [List.filter, startswithColon_mkShow, hc]
  rw [h3]
  rw [show [mkShow p (i + countColon A) (lineCmd l), l] =
    [mkShow p (i + countColon A) (lineCmd l)] ++ [l] from rfl]
  rw [← List.append_assoc, List.getLast?_concat]

theorem O0_lines_getLast (g0 : String) (args : Args) (od : String) :
    (O0_lines g0 args od).getLast? =
      some (if args.show_final_asl then ":show --format=raw"
        else ":" ++ g0 ++ " --output-dir=" ++ od ++ " --basename="
          ++ args.basename ++ " --num-c-files=1") := by
  unfold O0_lines
  exact List.getLast?_concat _

theorem noNL_full_subs_lines (args : Args) (argv : List String) (g : String)
    (hcmd : noNL (String.intercalate " " argv)) (hgen : noNL g) :
    ∀ l ∈ splitlines (base_script (full_subs args argv g)), noNL l := by
  rw [splitlines_full_script args argv g hcmd hgen]
  refine noNL_base_script_lines _ hcmd hgen ?_ ?_ ?_ ?_ ?_ ?_
  · exact noNL_ite _ _ _ (by decide) (by decide)
  · show noNL ""
    decide
  · exact noNL_ite _ _ _ (by decide) (by decide)
  · exact noNL_ite _ _ _ (by decide) (by decide)
  · exact noNL_ite _ _ _ (by decide) (by decide)
  · exact noNL_ite _ _ _ (by decide) (by decide)

/-- C5 (amended): full-mode scripts do terminate with `:quit` as the last
line and last directive (also under `--intermediates`, whose snapshots are
inserted before stages); minimal (`-O0`) scripts contain no `:quit` line
at all and end with the `:show`/code-generation directive. -/
theorem C5_amended_quit_directive (args : Args) (argv : List String)
    (od g0 : String)
    (hg : backend_generator (ffi_of args) args.backend = some g0)
    (htis : args.transform_int_slices = false)
    (hcmd : noNL (String.intercalate " " argv))
    (hod : noNL od) (hb : noNL args.basename)
    (hip : ∀ p, args.intermediates = some p → noNL p) :
    (args.O0 = false → ∀ s, mk_script args argv od = .ok s →
      (splitlines s).getLast? = some ":quit"
      ∧ (directives s).getLast? = some ":quit")
    ∧ (args.O0 = true → ∀ s, mk_script args argv od = .ok s →
      ":quit" ∉ splitlines s
      ∧ (splitlines s).getLast? =
        some (if args.show_final_asl then ":show --format=raw"
          else ":" ++ g0 ++ " --output-dir=" ++ od ++ " --basename="
            ++ args.basename ++ " --num-c-files=1")) := by
  have hg0nl : noNL g0 := noNL_backend_generator _ _ _ (noNL_ffi_of args) hg
  have hgen : noNL (generate_c_of args od (decorate_generator args g0)) :=
    noNL_generate_c_of args od _ hod hb
      (noNL_decorate_generator args g0 hg0nl)
  obtain ⟨A, hA⟩ := base_script_lines_concat_quit
    (full_subs args argv (generate_c_of args od (decorate_generator args g0)))
  constructor
  · intro hO0 s hs
    rcases hint : args.intermediates with _ | p
    · rw [mk_script_full_none args argv od g0 hg hO0 htis hint] at hs
      have hEq := Except.ok.inj hs
      subst hEq
      constructor
      · rw [splitlines_full_script args argv _ hcmd hgen, hA,
          List.getLast?_concat]
      · unfold directives
        rw [splitlines_full_script args argv _ hcmd hgen, hA,
          List.filter_append,
          (by decide : List.filter startswithColon [":quit"] = [":quit"]),
          List.getLast?_concat]
    · by_cases hp : p = ""
      · subst hp
        have heq : mk_script args argv od = .ok (base_script
            (full_subs args argv
              (generate_c_of args od (decorate_generator args g0)))) := by
          unfold mk_script
          rw [hg, hO0, htis, hint]
          simp
        rw [heq] at hs
        have hEq := Except.ok.inj hs
        subst hEq
        constructor
        · rw [splitlines_full_script args argv _ hcmd hgen, hA,
            List.getLast?_concat]
        · unfold directives
          rw [splitlines_full_script args argv _ hcmd hgen, hA,
            List.filter_append,
            (by decide : List.filter startswithColon [":quit"] = [":quit"]),
            List.getLast?_concat]
      · rw [mk_script_full_inter args argv od g0 p hg hO0 htis hint hp] at hs
        have hEq := Except.ok.inj hs
        subst hEq
        have hpnl : noNL p := hip p hint
        have hLnl := noNL_full_subs_lines args argv _ hcmd hgen
        have hne : splitlines (base_script (full_subs args argv
            (generate_c_of args od (decorate_generator args g0)))) ≠ [] := by
          rw [splitlines_full_script args argv _ hcmd hgen]
          exact base_script_lines_ne_nil _
        have hroundtrip : splitlines (joinNL (addShows p 0 (splitlines
            (base_script (full_subs args argv
              (generate_c_of args od (decorate_generator args g0))))))) =
            addShows p 0 (splitlines (base_script (full_subs args argv
              (generate_c_of args od (decorate_generator args g0))))) :=
          splitlines_joinNL_id _ (addShows_ne_nil p 0 _ hne)
            (addShows_noNL p hpnl _ hLnl 0)
        constructor
        · rw [hroundtrip, splitlines_full_script args argv _ hcmd hgen, hA,
            addShows_getLast p A ":quit" (by decide) 0]
        · unfold directives
          rw [hroundtrip, splitlines_full_script args argv _ hcmd hgen, hA]
          exact filter_addShows_concat p A ":quit" (by decide) 0
  · intro hO0 s hs
    rw [mk_script_O0_eq args argv od g0 hg hO0] at hs
    have hEq := Except.ok.inj hs
    subst hEq
    rw [splitlines_O0 g0 args od hg0nl hod hb]
    constructor
    · intro hmem
      unfold O0_lines at hmem
      by_cases hob : args.Obounded = true
      · rw [if_pos hob] at hmem
        simp only [List.append_assoc, List.mem_append, List.mem_cons,
          List.mem_singleton, List.not_mem_nil, or_false, false_or] at hmem
        rcases hmem with (h | h) | h | h
        · exact absurd h (by decide)
        · exact absurd h (by decide)
        · exact absurd h (by decide)
        · revert h
          split
          · intro h; exact absurd h (by decide)
          · intro h
            exact ne_quit_of_take_two _
              (gen_line_take_two g0 _ _ _ _ _
                (backend_generator_head _ _ _ hg)) h.symm
      · rw [if_neg hob] at hmem
        simp only [List.append_assoc, List.nil_append, List.mem_append,
          List.mem_cons, List.mem_singleton, List.not_mem_nil, or_false,
          false_or] at hmem
        rcases hmem with (h | h) | h
        · exact absurd h (by decide)
        · exact absurd h (by decide)
        · revert h
          split
          · intro h; exact absurd h (by decide)
          · intro h
            exact ne_quit_of_take_two _
              (gen_line_take_two g0 _ _ _ _ _
                (backend_generator_head _ _ _ hg)) h.symm
    · exact O0_lines_getLast g0 args od

/-- Witness for C5 (amended) at the default full-mode configuration. -/
theorem C5_amended_quit_directive_witness :
    (default_args.O0 = false → ∀ s,
      mk_script default_args ["bin/asl2c.py"] "" = .ok s →
      (splitlines s).getLast? = some ":quit"
      ∧ (directives s).getLast? = some ":quit")
    ∧ (default_args.O0 = true → ∀ s,
      mk_script default_args ["bin/asl2c.py"] "" = .ok s →
      ":quit" ∉ splitlines s
      ∧ (splitlines s).getLast? =
        some (if default_args.show_final_asl then ":show --format=raw"
          else ":" ++ "generate_c  --runtime=c23" ++ " --output-dir=" ++ ""
            ++ " --basename=" ++ default_args.basename
            ++ " --num-c-files=1")) :=
  C5_amended_quit_directive default_args ["bin/asl2c.py"] ""
    "generate_c  --runtime=c23" (by decide) rfl (by decide) (by decide)
    (by decide) (fun p hp => by simp [default_args] at hp)

/-! ## Claim C4 -/

theorem directives_O0_eq (g0 : String) (args : Args) (od : String)
    (hg0 : noNL g0) (hod : noNL od) (hb : noNL args.basename) :
    directives (joinNL (O0_lines g0 args od)) = O0_lines g0 args od := by
  unfold directives
  rw [splitlines_O0 g0 args od hg0 hod hb]
  exact List.filter_eq_self.mpr (O0_lines_all_colon g0 args od)

theorem O0_lines_take_two (g0 : String) (args : Args) (od : String) :
    (O0_lines g0 args od).take 2 =
      [":filter_unlisted_functions imports",
        ":filter_reachable_from exports"] := by
  unfold O0_lines
  rw [List.append_assoc, List.take_append_of_le_length (by simp)]
  rfl

theorem mem_addShows (p l : String) : ∀ (L : List String), l ∈ L →
    ∀ i, l ∈ addShows p i L := by
  intro L
  induction L with
  | nil => intro hl; cases hl
  | cons x xs ih =>
    intro hl i
    by_cases hc : startswithColon x
    · have h1 : addShows p i (x :: xs) =
          mkShow p i (lineCmd x) :: x :: addShows p (i + 1) xs := by
        simp [addShows, hc]
      rw [h1]
      rcases List.mem_cons.mp hl with rfl | hl2
      · exact List.mem_cons_of_mem _ (List.mem_cons_self _ _)
      · exact List.mem_cons_of_mem _ (List.mem_cons_of_mem _ (ih hl2 (i + 1)))
    · have h1 : addShows p i (x :: xs) = x :: addShows p i xs := by
        simp [addShows, hc]
      rw [h1]
      rcases List.mem_cons.mp hl with rfl | hl2
      · exact List.mem_cons_self _ _
      · exact List.mem_cons_of_mem _ (ih hl2 i)

theorem mem_base_script_lines_flu (s : Subs) :
    ":filter_unlisted_functions imports" ∈ base_script_lines s := by
  simp only [base_script_lines, List.append_assoc, List.mem_append]
  refine Or.inr (Or.inr (Or.inr (Or.inr (Or.inr (Or.inr (Or.inr (Or.inr
    (Or.inr (Or.inr (Or.inr (Or.inr (Or.inr (Or.inr (Or.inr (Or.inr
      (Or.inl ?_))))))))))))))))
  decide

theorem mem_base_script_lines_frf (s : Subs) :
    ":filter_reachable_from exports" ∈ base_script_lines s := by
  simp only [base_script_lines, List.append_assoc, List.mem_append]
  refine Or.inr (Or.inr (Or.inr (Or.inr (Or.inr (Or.inr (Or.inr (Or.inr
    (Or.inr (Or.inr (Or.inr (Or.inr (Or.inr (Or.inr (Or.inr (Or.inr
      (Or.inl ?_))))))))))))))))
  decide

/-- C4 counterexample: the claim says the minimal (`-O0`) and full scripts
share the same *leading* import/export filter stages.  At the default
configuration the full script's first directive is
`:filter_reachable_from --keep-builtins exports` while the minimal
script's first directive is `:filter_unlisted_functions imports` — the
shared filter stages sit at the *end* of the full script, not at its
head. -/
theorem C4_cex_leading_stages_differ :
    (mk_script default_args ["bin/asl2c.py"] "").map
        (fun s => (directives s).headD "") =
      .ok ":filter_reachable_from --keep-builtins exports"
    ∧ (mk_script o0_args ["bin/asl2c.py"] "").map
        (fun s => (directives s).headD "") =
      .ok ":filter_unlisted_functions imports"
    ∧ (":filter_reachable_from --keep-builtins exports" ≠
        ":filter_unlisted_functions imports") := by
  refine ⟨?_, by decide, by decide⟩
  rw [mk_script_full_none default_args _ _ "generate_c  --runtime=c23"
    (by decide) rfl rfl rfl]
  simp only [Except.map]
  unfold directives
  rw [splitlines_full_script _ _ _ (by decide) (by decide)]
  rw [filter_base_script_lines _ rfl]
  decide

theorem directives_full_length_ge (args : Args) (argv : List String)
    (od g0 : String)
    (hg : backend_generator (ffi_of args) args.backend = some g0)
    (hO0 : args.O0 = false) (htis : args.transform_int_slices = false)
    (hcmd : noNL (String.intercalate " " argv)) (hod : noNL od)
    (hb : noNL args.basename)
    (hip : ∀ p, args.intermediates = some p → noNL p) :
    ∀ sF, mk_script args argv od = .ok sF → 22 ≤ (directives sF).length := by
  intro sF hsF
  have hg0nl : noNL g0 := noNL_backend_generator _ _ _ (noNL_ffi_of args) hg
  have hgen : noNL (generate_c_of args od (decorate_generator args g0)) :=
    noNL_generate_c_of args od _ hod hb
      (noNL_decorate_generator args g0 hg0nl)
  have hfull_count := countColon_full_lines args argv
    (generate_c_of args od (decorate_generator args g0))
  rw [countColon, List.countP_eq_length_filter] at hfull_count
  rcases Option.eq_none_or_eq_some args.intermediates with hint | ⟨p, hint⟩
  · rw [mk_script_full_none args argv od g0 hg hO0 htis hint] at hsF
    have hEq := Except.ok.inj hsF
    subst hEq
    unfold directives
    rw [splitlines_full_script args argv _ hcmd hgen, hfull_count]
    split_ifs <;> omega
  · by_cases hp : p = ""
    · subst hp
      have heq : mk_script args argv od = .ok (base_script
          (full_subs args argv
            (generate_c_of args od (decorate_generator args g0)))) := by
        unfold mk_script
        rw [hg, hO0, htis, hint]
        simp
      rw [heq] at hsF
      have hEq := Except.ok.inj hsF
      subst hEq
      unfold directives
      rw [splitlines_full_script args argv _ hcmd hgen, hfull_count]
      split_ifs <;> omega
    · rw [mk_script_full_inter args argv od g0 p hg hO0 htis hint hp] at hsF
      have hEq := Except.ok.inj hsF
      subst hEq
      have hpnl : noNL p := hip p hint
      have hLnl := noNL_full_subs_lines args argv _ hcmd hgen
      have hne : splitlines (base_script (full_subs args argv
          (generate_c_of args od (decorate_generator args g0)))) ≠ [] := by
        rw [splitlines_full_script args argv _ hcmd hgen]
        exact base_script_lines_ne_nil _
      have hroundtrip : splitlines (joinNL (addShows p 0 (splitlines
          (base_script (full_subs args argv
            (generate_c_of args od (decorate_generator args g0))))))) =
          addShows p 0 (splitlines (base_script (full_subs args argv
            (generate_c_of args od (decorate_generator args g0))))) :=
        splitlines_joinNL_id _ (addShows_ne_nil p 0 _ hne)
          (addShows_noNL p hpnl _ hLnl 0)
      unfold directives
      rw [hroundtrip, splitlines_full_script args argv _ hcmd hgen]
      have h2 := addShows_countColon p (base_script_lines (full_subs args
        argv (generate_c_of args od (decorate_generator args g0)))) 0
      simp only [countColon, List.countP_eq_length_filter] at h2
      rw [h2, hfull_count]
      split_ifs <;> omega

theorem directives_full_mem_filters (args : Args) (argv : List String)
    (od g0 : String)
    (hg : backend_generator (ffi_of args) args.backend = some g0)
    (hO0 : args.O0 = false) (htis : args.transform_int_slices = false)
    (hcmd : noNL (String.intercalate " " argv)) (hod : noNL od)
    (hb : noNL args.basename)
    (hip : ∀ p, args.intermediates = some p → noNL p) :
    ∀ sF, mk_script args argv od = .ok sF →
      ":filter_unlisted_functions imports" ∈ directives sF
      ∧ ":filter_reachable_from exports" ∈ directives sF := by
  intro sF hsF
  have hg0nl : noNL g0 := noNL_backend_generator _ _ _ (noNL_ffi_of args) hg
  have hgen : noNL (generate_c_of args od (decorate_generator args g0)) :=
    noNL_generate_c_of args od _ hod hb
      (noNL_decorate_generator args g0 hg0nl)
  rcases Option.eq_none_or_eq_some args.intermediates with hint | ⟨p, hint⟩
  · rw [mk_script_full_none args argv od g0 hg hO0 htis hint] at hsF
    have hEq := Except.ok.inj hsF
    subst hEq
    unfold directives
    rw [splitlines_full_script args argv _ hcmd hgen]
    exact ⟨List.mem_filter.mpr ⟨mem_base_script_lines_flu _, by decide⟩,
      List.mem_filter.mpr ⟨mem_base_script_lines_frf _, by decide⟩⟩
  · by_cases hp : p = ""
    · subst hp
      have heq : mk_script args argv od = .ok (base_script
          (full_subs args argv
            (generate_c_of args od (decorate_generator args g0)))) := by
        unfold mk_script
        rw [hg, hO0, htis, hint]
        simp
      rw [heq] at hsF
      have hEq := Except.ok.inj hsF
      subst hEq
      unfold directives
      rw [splitlines_full_script args argv _ hcmd hgen]
      exact ⟨List.mem_filter.mpr ⟨mem_base_script_lines_flu _, by decide⟩,
        List.mem_filter.mpr ⟨mem_base_script_lines_frf _, by decide⟩⟩
    · rw [mk_script_full_inter args argv od g0 p hg hO0 htis hint hp] at hsF
      have hEq := Except.ok.inj hsF
      subst hEq
      have hpnl : noNL p := hip p hint
      have hLnl := noNL_full_subs_lines args argv _ hcmd hgen
      have hne : splitlines (base_script (full_subs args argv
          (generate_c_of args od (decorate_generator args g0)))) ≠ [] := by
        rw [splitlines_full_script args argv _ hcmd hgen]
        exact base_script_lines_ne_nil _
      have hroundtrip : splitlines (joinNL (addShows p 0 (splitlines
          (base_script (full_subs args argv
            (generate_c_of args od (decorate_generator args g0))))))) =
          addShows p 0 (splitlines (base_script (full_subs args argv
            (generate_c_of args od (decorate_generator args g0))))) :=
        splitlines_joinNL_id _ (addShows_ne_nil p 0 _ hne)
          (addShows_noNL p hpnl _ hLnl 0)
      unfold directives
      rw [hroundtrip]
      constructor
      · refine List.mem_filter.mpr ⟨?_, by decide⟩
        apply mem_addShows
        rw [splitlines_full_script args argv _ hcmd hgen]
        exact mem_base_script_lines_flu _
      · refine List.mem_filter.mpr ⟨?_, by decide⟩
        apply mem_addShows
        rw [splitlines_full_script args argv _ hcmd hgen]
        exact mem_base_script_lines_frf _

theorem directives_full_head (args : Args) (argv : List String)
    (od g0 : String)
    (hg : backend_generator (ffi_of args) args.backend = some g0)
    (hO0 : args.O0 = false) (htis : args.transform_int_slices = false)
    (hcmd : noNL (String.intercalate " " argv)) (hod : noNL od)
    (hb : noNL args.basename) (hint : args.intermediates = none) :
    ∀ sF, mk_script args argv od = .ok sF →
      (directives sF).headD "" =
        ":filter_reachable_from --keep-builtins exports" := by
  intro sF hsF
  have hg0nl : noNL g0 := noNL_backend_generator _ _ _ (noNL_ffi_of args) hg
  have hgen : noNL (generate_c_of args od (decorate_generator args g0)) :=
    noNL_generate_c_of args od _ hod hb
      (noNL_decorate_generator args g0 hg0nl)
  rw [mk_script_full_none args argv od g0 hg hO0 htis hint] at hsF
  have hEq := Except.ok.inj hsF
  subst hEq
  unfold directives
  rw [splitlines_full_script args argv _ hcmd hgen,
    filter_base_script_lines _ rfl]
  rfl

/-- C4 (amended): the minimal (`-O0`) pipeline is strictly shorter than
the full pipeline for the same configuration, and the minimal script's
two leading import/export filter stages (`:filter_unlisted_functions
imports`, `:filter_reachable_from exports`) both occur in the full
script — but as its *final* filter stages; the full script instead leads
with `:filter_reachable_from --keep-builtins exports`. -/
theorem C4_amended_minimal_vs_full (args : Args) (argv : List String)
    (od g0 : String)
    (hg : backend_generator (ffi_of args) args.backend = some g0)
    (hO0 : args.O0 = false) (htis : args.transform_int_slices = false)
    (hcmd : noNL (String.intercalate " " argv)) (hod : noNL od)
    (hb : noNL args.basename)
    (hip : ∀ p, args.intermediates = some p → noNL p) :
    ∀ sF sM, mk_script args argv od = .ok sF →
      mk_script { args with O0 := true } argv od = .ok sM →
      (directives sM).length < (directives sF).length
      ∧ (directives sM).take 2 =
          [":filter_unlisted_functions imports",
            ":filter_reachable_from exports"]
      ∧ ":filter_unlisted_functions imports" ∈ directives sF
      ∧ ":filter_reachable_from exports" ∈ directives sF
      ∧ (args.intermediates = none →
          (directives sF).headD "" =
            ":filter_reachable_from --keep-builtins exports") := by
  intro sF sM hsF hsM
  have hg0nl : noNL g0 := noNL_backend_generator _ _ _ (noNL_ffi_of args) hg
  rw [mk_script_O0_eq { args with O0 := true } argv od g0 hg rfl] at hsM
  have hEq := Except.ok.inj hsM
  subst hEq
  have hDm : directives (joinNL (O0_lines g0 { args with O0 := true } od)) =
      O0_lines g0 { args with O0 := true } od :=
    directives_O0_eq g0 { args with O0 := true } od hg0nl hod hb
  refine ⟨?_, ?_, (directives_full_mem_filters args argv od g0 hg hO0 htis
      hcmd hod hb hip sF hsF).1,
    (directives_full_mem_filters args argv od g0 hg hO0 htis
      hcmd hod hb hip sF hsF).2,
    fun hint => directives_full_head args argv od g0 hg hO0 htis hcmd hod
      hb hint sF hsF⟩
  · have h22 := directives_full_length_ge args argv od g0 hg hO0 htis hcmd
      hod hb hip sF hsF
    have hMlen : (directives (joinNL
        (O0_lines g0 { args with O0 := true } od))).length =
        3 + (if args.Obounded then 1 else 0) := by
      rw [hDm, O0_lines_length]
    rw [hMlen]
    split_ifs <;> omega
  · rw [hDm, O0_lines_take_two]

/-- Witness for C4 (amended) at the default configuration. -/
theorem C4_amended_minimal_vs_full_witness :
    mk_script default_args ["bin/asl2c.py"] "" = .ok c4_full_script
    ∧ mk_script { default_args with O0 := true } ["bin/asl2c.py"] ""
        = .ok c4_O0_script
    ∧ (directives c4_O0_script).length < (directives c4_full_script).length
    ∧ (directives c4_O0_script).take 2 =
        [":filter_unlisted_functions imports",
          ":filter_reachable_from exports"]
    ∧ ":filter_unlisted_functions imports" ∈ directives c4_full_script
    ∧ ":filter_reachable_from exports" ∈ directives c4_full_script
    ∧ (directives c4_full_script).headD "" =
        ":filter_reachable_from --keep-builtins exports" := by
  have hsF : mk_script default_args ["bin/asl2c.py"] ""
      = .ok c4_full_script :=
    mk_script_full_none default_args ["bin/asl2c.py"] ""
      "generate_c  --runtime=c23" (by decide) rfl rfl rfl
  have hsM : mk_script { default_args with O0 := true } ["bin/asl2c.py"] ""
      = .ok c4_O0_script :=
    mk_script_O0_eq { default_args with O0 := true } ["bin/asl2c.py"] ""
      "generate_c  --runtime=c23" (by decide) rfl
  obtain ⟨h1, h2, h3, h4, h5⟩ := C4_amended_minimal_vs_full default_args
    ["bin/asl2c.py"] "" "generate_c  --runtime=c23" (by decide) rfl rfl
    (by decide) (by decide) (by decide)
    (fun p hp => by simp [default_args] at hp) c4_full_script c4_O0_script
    hsF hsM
  exact ⟨hsF, hsM, h1, h2, h3, h4, h5 rfl⟩

/-! ## Claim C6 -/

theorem headChar_append (s t : String) (c : Char) (h : headChar s = some c) :
    headChar (s ++ t) = some c := by
  unfold headChar at *
  rw [String.data_append, List.head?_append, h]
  rfl

theorem headChar_decorate (args : Args) (g0 : String) (c : Char)
    (h : headChar g0 = some c) : headChar (decorate_generator args g0) =
      some c := by
  unfold decorate_generator
  dsimp only
  set g1 := if args.const_ref ≠ 0 then
      g0 ++ " --const-ref=" ++ Nat.repr args.const_ref else g0 with hg1
  set g2 := if args.generate_cxx then g1 ++ " --generate-cxx" else g1 with hg2
  have h1 : headChar g1 = some c := by
    rw [hg1]
    split
    · exact headChar_append _ _ _ (headChar_append _ _ _ h)
    · exact h
  have h2 : headChar g2 = some c := by
    rw [hg2]
    split
    · exact headChar_append _ _ _ h1
    · exact h1
  split
  · exact headChar_append _ _ _ h2
  · exact h2

theorem headChar_generate_c_of (args : Args) (od g3 : String) (c : Char)
    (h : headChar g3 = some c) :
    headChar (generate_c_of args od g3) = some c := by
  unfold generate_c_of
  split
  · exact headChar_append _ _ _ (headChar_append _ _ _ (headChar_append _ _ _
      (headChar_append _ _ _ (headChar_append _ _ _ (headChar_append _ _ _
        (headChar_append _ _ _ h))))))
  · exact headChar_append _ _ _ (headChar_append _ _ _
      (headChar_append _ _ _ h))

theorem not_show_colon_append (g : String) (h : headChar g = some 'g') :
    startswithStr (":" ++ g) ":show" = false := by
  rcases hb : startswithStr (":" ++ g) ":show"
  · rfl
  exfalso
  have hpre := (startswithStr_iff _ _).mp hb
  rw [String.data_append] at hpre
  have h1 : (":" : String).data = [':'] := rfl
  have h2 : (":show" : String).data = [':', 's', 'h', 'o', 'w'] := rfl
  rw [h1, h2] at hpre
  obtain ⟨t, ht⟩ := hpre
  have ht2 : ':' :: (['s', 'h', 'o', 'w'] ++ t) = ':' :: g.data := by
    simpa using ht
  have h3 : ['s', 'h', 'o', 'w'] ++ t = g.data := (List.cons.injEq _ _ _ _
    |>.mp ht2).2
  unfold headChar at h
  rw [← h3] at h
  simp at h

theorem not_show_full_lines (args : Args) (argv : List String) (g : String)
    (hgc : headChar g = some 'g') (p : String) :
    ∀ l ∈ base_script_lines (full_subs args argv g), isShow p l = false := by
  intro l hl
  apply not_isShow_of_not_show
  simp only [base_script_lines, List.append_assoc, List.mem_append,
    List.mem_singleton] at hl
  rcases hl with h|h|h|h|h|h|h|h|h|h|h|h|h|h|h|h|h|h|h
  · exact (by decide : ∀ l ∈ seg1, startswithStr l ":show" = false) l h
  · subst h
    rw [startswithStr_append_left _ _ _ (by decide)]
    decide
  · exact (by decide : ∀ l ∈ seg2, startswithStr l ":show" = false) l h
  · subst h
    show startswithStr "" ":show" = false
    decide
  · exact (by decide : ∀ l ∈ seg3, startswithStr l ":show" = false) l h
  · subst h
    show startswithStr (if args.instrument_unknown then
      ":xform_valid track-valid" else "") ":show" = false
    split <;> decide
  · exact (by decide : ∀ l ∈ seg4, startswithStr l ":show" = false) l h
  · subst h
    rw [startswithStr_append_left _ _ _ (by decide)]
    decide
  · exact (by decide : ∀ l ∈ seg5, startswithStr l ":show" = false) l h
  · subst h
    rw [startswithStr_append_left _ _ _ (by decide)]
    decide
  · exact (by decide : ∀ l ∈ seg6, startswithStr l ":show" = false) l h
  · subst h
    rw [startswithStr_append_left _ _ _ (by decide)]
    decide
  · exact (by decide : ∀ l ∈ seg7, startswithStr l ":show" = false) l h
  · subst h
    show startswithStr (if args.wrap_variables then ":xform_wrap" else "")
      ":show" = false
    split <;> decide
  · exact (by decide : ∀ l ∈ seg8, startswithStr l ":show" = false) l h
  · subst h
    show startswithStr (if args.Obounded then ":xform_bounded" else "")
      ":show" = false
    split <;> decide
  · exact (by decide : ∀ l ∈ seg9, startswithStr l ":show" = false) l h
  · subst h
    exact not_show_colon_append g hgc
  · exact (by decide : ∀ l ∈ seg10, startswithStr l ":show" = false) l h

/-- C6 counterexample: the claim says snapshots are interleaved *after*
every directive stage (named after that stage).  With
`--intermediates=log` at the default configuration, the script's very
first directive is already a snapshot (numbered 00 and named after the
*following* stage), its last directive is `:quit` with no snapshot after
it, and the code's insertion differs from the spec-worded
snapshot-after-each-stage transformation on the very lines it produces. -/
theorem C6_cex_snapshots_inserted_before :
    (mk_script inter_args ["bin/asl2c.py", "--intermediates=log"] "").map
        (fun s => (directives s).headD "") =
      .ok ":show --format=raw --output log.00.filter_reachable_from.asl"
    ∧ (mk_script inter_args ["bin/asl2c.py", "--intermediates=log"] "").map
        (fun s => (directives s).getLast?) = .ok (some ":quit")
    ∧ (":show --format=raw --output log.00.filter_reachable_from.asl" ≠
        ":filter_reachable_from --keep-builtins exports")
    ∧ addShows "log" 0 (base_script_lines (full_subs inter_args
          ["bin/asl2c.py", "--intermediates=log"]
          (generate_c_of inter_args ""
            (decorate_generator inter_args "generate_c  --runtime=c23")))) ≠
        spec_addShowsAfter "log" 0 (base_script_lines (full_subs inter_args
          ["bin/asl2c.py", "--intermediates=log"]
          (generate_c_of inter_args ""
            (decorate_generator inter_args "generate_c  --runtime=c23")))) := by
  have hroundtrip : splitlines (joinNL (addShows "log" 0 (splitlines
      (base_script (full_subs inter_args
        ["bin/asl2c.py", "--intermediates=log"]
        (generate_c_of inter_args ""
          (decorate_generator inter_args "generate_c  --runtime=c23"))))))) =
      addShows "log" 0 (splitlines (base_script (full_subs inter_args
        ["bin/asl2c.py", "--intermediates=log"]
        (generate_c_of inter_args ""
          (decorate_generator inter_args "generate_c  --runtime=c23"))))) := by
    refine splitlines_joinNL_id _ (addShows_ne_nil _ _ _ ?_) ?_
    · rw [splitlines_full_script _ _ _ (by decide) (by decide)]
      exact base_script_lines_ne_nil _
    · exact addShows_noNL "log" (by decide) _
        (noNL_full_subs_lines inter_args _ _ (by decide) (by decide)) 0
  refine ⟨?_, ?_, by decide, ?_⟩
  · rw [mk_script_full_inter inter_args _ "" "generate_c  --runtime=c23"
      "log" (by decide) rfl rfl rfl (by decide)]
    simp only [Except.map]
    unfold directives
    rw [hroundtrip, splitlines_full_script _ _ _ (by decide) (by decide)]
    decide
  · rw [mk_script_full_inter inter_args _ "" "generate_c  --runtime=c23"
      "log" (by decide) rfl rfl rfl (by decide)]
    simp only [Except.map]
    unfold directives
    rw [hroundtrip, splitlines_full_script _ _ _ (by decide) (by decide)]
    decide
  · decide

/-- C6 (amended): with `--intermediates=<p>` enabled (full mode), the
generated script equals the plain script with a snapshot directive
inserted immediately *before* every directive stage; removing the
snapshot lines recovers exactly the plain script's lines (so the set and
relative order of non-snapshot directives is unchanged), and the snapshot
lines are numbered sequentially and named after the stage that *follows*
each of them. -/
theorem C6_amended_snapshots_before_stages (args : Args) (argv : List String)
    (od g0 p : String)
    (hg : backend_generator (ffi_of args) args.backend = some g0)
    (hO0 : args.O0 = false) (htis : args.transform_int_slices = false)
    (hcmd : noNL (String.intercalate " " argv)) (hod : noNL od)
    (hb : noNL args.basename) (hp : p ≠ "") (hpnl : noNL p) :
    ∀ sI s0,
      mk_script { args with intermediates := some p } argv od = .ok sI →
      mk_script { args with intermediates := none } argv od = .ok s0 →
      splitlines sI = addShows p 0 (splitlines s0)
      ∧ (splitlines sI).filter (fun l => !(isShow p l)) = splitlines s0
      ∧ (splitlines sI).filter (isShow p) = numberShows p 0 (directives s0) := by
  intro sI s0 hsI hs0
  rw [mk_script_full_inter { args with intermediates := some p } argv od g0 p
    hg hO0 htis rfl hp] at hsI
  have hEqI := Except.ok.inj hsI
  subst hEqI
  rw [mk_script_full_none { args with intermediates := none } argv od g0
    hg hO0 htis rfl] at hs0
  have hEqN := Except.ok.inj hs0
  subst hEqN
  have hgenI : noNL (generate_c_of { args with intermediates := some p } od
      (decorate_generator { args with intermediates := some p } g0)) :=
    noNL_generate_c_of _ od _ hod hb (noNL_decorate_generator _ g0
      (noNL_backend_generator _ _ _ (noNL_ffi_of args) hg))
  have hgenN : noNL (generate_c_of { args with intermediates := none } od
      (decorate_generator { args with intermediates := none } g0)) :=
    noNL_generate_c_of _ od _ hod hb (noNL_decorate_generator _ g0
      (noNL_backend_generator _ _ _ (noNL_ffi_of args) hg))
  have hgcI : headChar (generate_c_of { args with intermediates := some p }
      od (decorate_generator { args with intermediates := some p } g0)) =
      some 'g' :=
    headChar_generate_c_of _ od _ _ (headChar_decorate _ g0 _
      (backend_generator_head _ _ _ hg))
  have hnotshow := not_show_full_lines { args with intermediates := some p }
    argv (generate_c_of { args with intermediates := some p } od
      (decorate_generator { args with intermediates := some p } g0)) hgcI p
  have hLnlI := noNL_full_subs_lines { args with intermediates := some p }
    argv _ hcmd hgenI
  have hneI : splitlines (base_script (full_subs
      { args with intermediates := some p } argv
      (generate_c_of { args with intermediates := some p } od
        (decorate_generator { args with intermediates := some p } g0)))) ≠
      [] := by
    rw [splitlines_full_script _ argv _ hcmd hgenI]
    exact base_script_lines_ne_nil _
  have hroundtrip : splitlines (joinNL (addShows p 0 (splitlines
      (base_script (full_subs { args with intermediates := some p } argv
        (generate_c_of { args with intermediates := some p } od
          (decorate_generator { args with intermediates := some p }
            g0))))))) =
      addShows p 0 (splitlines (base_script (full_subs
        { args with intermediates := some p } argv
        (generate_c_of { args with intermediates := some p } od
          (decorate_generator { args with intermediates := some p } g0))))) :=
    splitlines_joinNL_id _ (addShows_ne_nil p 0 _ hneI)
      (addShows_noNL p hpnl _ hLnlI 0)
  have hnotshow' : ∀ l ∈ splitlines (base_script (full_subs
      { args with intermediates := some p } argv
      (generate_c_of { args with intermediates := some p } od
        (decorate_generator { args with intermediates := some p } g0)))),
      isShow p l = false := by
    rw [splitlines_full_script _ argv _ hcmd hgenI]
    exact hnotshow
  refine ⟨?_, ?_, ?_⟩
  · rw [hroundtrip]
    rfl
  · rw [hroundtrip, addShows_filter_not_show p _ hnotshow' 0]
    rfl
  · rw [hroundtrip, addShows_filter_show p _ hnotshow' 0]
    unfold directives
    rfl

/-- Witness for C6 (amended) at the default configuration with prefix
`log`. -/
theorem C6_amended_snapshots_before_stages_witness :
    mk_script { default_args with intermediates := some "log" }
        ["bin/asl2c.py"] "" = .ok c6_inter_script
    ∧ mk_script { default_args with intermediates := none }
        ["bin/asl2c.py"] "" = .ok c6_plain_script
    ∧ splitlines c6_inter_script =
        addShows "log" 0 (splitlines c6_plain_script)
    ∧ (splitlines c6_inter_script).filter (fun l => !(isShow "log" l))
        = splitlines c6_plain_script
    ∧ (splitlines c6_inter_script).filter (isShow "log") =
        numberShows "log" 0 (directives c6_plain_script) := by
  have hsI : mk_script { default_args with intermediates := some "log" }
      ["bin/asl2c.py"] "" = .ok c6_inter_script :=
    mk_script_full_inter { default_args with intermediates := some "log" }
      ["bin/asl2c.py"] "" "generate_c  --runtime=c23" "log" (by decide) rfl
      rfl rfl (by decide)
  have hs0 : mk_script { default_args with intermediates := none }
      ["bin/asl2c.py"] "" = .ok c6_plain_script :=
    mk_script_full_none { default_args with intermediates := none }
      ["bin/asl2c.py"] "" "generate_c  --runtime=c23" (by decide) rfl rfl rfl
  obtain ⟨h1, h2, h3⟩ := C6_amended_snapshots_before_stages default_args
    ["bin/asl2c.py"] "" "generate_c  --runtime=c23" "log" (by decide) rfl rfl
    (by decide) (by decide) (by decide) (by decide) (by decide)
    c6_inter_script c6_plain_script hsI hs0
  exact ⟨hsI, hs0, h1, h2, h3⟩

/-! ## Build-session abort and cleanup lemmas (asl2c.py 223-229, 425-481,
598-614) -/

theorem no_rmtree_c_flags_base_effects (asli : String) :
    ∀ e ∈ c_flags_base_effects asli, isRmtree e = false := by
  intro e he
  unfold c_flags_base_effects at he
  split at he
  · rcases List.mem_singleton.mp he with rfl
    rfl
  · cases he

theorem no_rmtree_ld_flags_base_effects (asli : String) :
    ∀ e ∈ ld_flags_base_effects asli, isRmtree e = false := by
  intro e he
  unfold ld_flags_base_effects at he
  split at he
  · rcases List.mem_singleton.mp he with rfl
    rfl
  · cases he

theorem no_rmtree_pick_cc_probe (o : Oracle) (b : Bool) :
    ∀ e ∈ (pick_cc_probe o b).2, isRmtree e = false := by
  intro e he
  unfold pick_cc_probe at he
  split_ifs at he <;> dsimp only at he <;> fin_cases he <;> rfl

theorem no_rmtree_pick_cc (env : String → Option String) (o : Oracle)
    (b : Bool) : ∀ e ∈ (pick_cc env o b).2, isRmtree e = false := by
  intro e he
  unfold pick_cc at he
  rcases h : env "CC" with _ | cc
  · rw [h] at he
    dsimp only at he
    exact no_rmtree_pick_cc_probe o b e he
  · rw [h] at he
    dsimp only at he
    split_ifs at he
    · cases he
    · exact no_rmtree_pick_cc_probe o b e he

/-- Every effect of the `--extra-c` compile loop is a subprocess `run`,
and a failing loop ends on the failing compile, forwarding its nonzero
status. -/
theorem compileExtras_spec (cc : List String) (wd : String) (o : Oracle) :
    ∀ extra_c t r, compileExtras cc wd o extra_c = (t, r) →
      (∀ e ∈ t, ∃ c, e = Effect.runProc c)
      ∧ ∀ code, r = .error code →
          code ≠ 0 ∧ ∃ c, t.getLast? = some (Effect.runProc c)
            ∧ o.exitOf c = code := by
  intro extra_c
  induction extra_c with
  | nil =>
    intro t r h
    unfold compileExtras at h
    injection h with h1 h2
    subst h1
    subst h2
    refine ⟨fun e he => absurd he (List.not_mem_nil e), fun code hc => ?_⟩
    cases hc
  | cons f rest ih =>
    intro t r h
    unfold compileExtras at h
    dsimp only at h
    rcases hrec : compileExtras cc wd o rest with ⟨t0, r0⟩
    rw [hrec] at h
    dsimp only at h
    split at h
    next hx =>
      injection h with h1 h2
      subst h1
      subst h2
      obtain ⟨hmem0, herr0⟩ := ih t0 r0 hrec
      constructor
      · intro e he
        rcases List.mem_cons.mp he with rfl | he0
        · exact ⟨_, rfl⟩
        · exact hmem0 e he0
      · intro code hcode
        have hr0 : r0 = .error code := by
          cases r0 with
          | error c0 =>
            have hc0 : c0 = code := by simpa [Except.map] using hcode
            rw [hc0]
          | ok v => simp [Except.map] at hcode
        obtain ⟨hne, c, hlast, hexit⟩ := herr0 code hr0
        refine ⟨hne, c, ?_, hexit⟩
        rcases t0 with _ | ⟨a, t1⟩
        · cases hlast
        · rw [List.getLast?_cons_cons]
          exact hlast
    next hx =>
      injection h with h1 h2
      subst h1
      subst h2
      constructor
      · intro e he
        rcases List.mem_singleton.mp he with rfl
        exact ⟨_, rfl⟩
      · intro code hcode
        injection hcode with hc
        subst hc
        exact ⟨hx, _, rfl, rfl⟩

/-- `compile_and_link` never deletes anything, and when it reports a
failure the reported status is the nonzero exit status of the last
subprocess it ran. -/
theorem compile_and_link_session_spec (b : Bool)
    (c_files extra_c : List String) (exe wd : String)
    (cf lf : List String) (env : String → Option String) (o : Oracle)
    (tcl : List Effect) (r : Option Nat)
    (h : compile_and_link_session b c_files extra_c exe wd cf lf env o
      = (tcl, r)) :
    (∀ e ∈ tcl, isRmtree e = false)
    ∧ ∀ code, r = some code →
        code ≠ 0 ∧ ∃ c, tcl.getLast? = some (Effect.runProc c)
          ∧ o.exitOf c = code := by
  unfold compile_and_link_session at h
  rcases hpc : pick_cc env o b with ⟨cc, probeEff⟩
  rw [hpc] at h
  dsimp only at h
  have hprobe : ∀ e ∈ probeEff, isRmtree e = false := by
    have hp := no_rmtree_pick_cc env o b
    rw [hpc] at hp
    exact hp
  rcases hce : compileExtras cc wd o extra_c with ⟨t0, r0⟩
  rw [hce] at h
  obtain ⟨hmem0, herr0⟩ := compileExtras_spec cc wd o extra_c t0 r0 hce
  have hmem0r : ∀ e ∈ t0, isRmtree e = false := by
    intro e he
    obtain ⟨c, rfl⟩ := hmem0 e he
    rfl
  cases r0 with
  | error code0 =>
    dsimp only at h
    injection h with h1 h2
    subst h1
    subst h2
    obtain ⟨hne, c, hlast, hexit⟩ := herr0 code0 rfl
    constructor
    · intro e he
      rcases List.mem_append.mp he with he | he
      · exact hprobe e he
      · exact hmem0r e he
    · intro code hcode
      injection hcode with hc
      subst hc
      refine ⟨hne, c, ?_, hexit⟩
      have ht0 : t0 ≠ [] := by
        intro hnil
        rw [hnil] at hlast
        cases hlast
      rw [List.getLast?_append_of_ne_nil _ ht0]
      exact hlast
  | ok objs =>
    dsimp only at h
    split at h <;> split at h
    all_goals injection h with h1 h2
    all_goals subst h1
    all_goals subst h2
    all_goals refine ⟨?_, ?_⟩
    all_goals try
      (intro e he
       rcases List.mem_append.mp he with he | he
       · rcases List.mem_append.mp he with he | he
         · exact hprobe e he
         · exact hmem0r e he
       · rcases List.mem_singleton.mp he with rfl
         rfl)
    all_goals intro code hcode
    all_goals try exact Option.noConfusion hcode
    all_goals injection hcode with hc
    all_goals subst hc
    all_goals rename_i hcxx hlink
    all_goals exact ⟨hlink, _, List.getLast?_concat _, rfl⟩

/-- The final cleanup deletes the workspace exactly when `--save-temps`
was not given, and it never exits abnormally. -/
theorem finishSession_spec (st : Bool) (wd : String) (t : List Effect)
    (ht : ∀ e ∈ t, isRmtree e = false) :
    (finishSession st wd t).2 = .completed
    ∧ (Effect.rmtree wd ∈ (finishSession st wd t).1 ↔ st = false)
    ∧ (∀ c, (finishSession st wd t).2 ≠ .exited c)
    ∧ ∀ e, (finishSession st wd t).2 ≠ .crashed e := by
  cases st with
  | true =>
    have hfs : finishSession true wd t = (t, .completed) := rfl
    rw [hfs]
    refine ⟨rfl, ?_, fun c hc => by simp at hc, fun e hc => by simp at hc⟩
    dsimp only
    constructor
    · intro hmem
      have hh := ht _ hmem
      simp [isRmtree] at hh
    · intro hh
      exact absurd hh (by decide)
  | false =>
    have hfs : finishSession false wd t = (t ++ [.rmtree wd], .completed) :=
      rfl
    rw [hfs]
    refine ⟨rfl, ?_, fun c hc => by simp at hc, fun e hc => by simp at hc⟩
    dsimp only
    constructor
    · intro _
      rfl
    · intro _
      exact List.mem_append.mpr (Or.inr (List.mem_singleton.mpr rfl))

/-- The supported backends resolve both flag lookups without an
exception (for `sc`, provided `SC_TYPES_DIR` is set and non-empty). -/
theorem backend_flags_ok (asli : String) (env : String → Option String)
    (o : Oracle) (b : String)
    (hb : b = "ac" ∨ b = "c23" ∨ b = "fallback"
      ∨ (b = "sc" ∧ ∃ d, env "SC_TYPES_DIR" = some d ∧ d ≠ "")) :
    (∃ fl, (get_c_flags asli b env o).2 = .ok fl)
    ∧ ∃ fl, (get_ld_flags asli b env o).2 = .ok fl := by
  rcases hb with hb | hb | hb | ⟨hb, d, hd, hdne⟩ <;> subst hb
  · exact ⟨⟨c_flags_base asli o ++ (["-DASL_AC"] ++ ac_types_include env),
        by simp [get_c_flags, backend_c_flags]⟩,
      ld_flags_base asli o, by simp [get_ld_flags, backend_ld_flags]⟩
  · exact ⟨⟨c_flags_base asli o ++ ["-DASL_C23"],
        by simp [get_c_flags, backend_c_flags]⟩,
      ld_flags_base asli o, by simp [get_ld_flags, backend_ld_flags]⟩
  · exact ⟨⟨c_flags_base asli o ++ ["-DASL_FALLBACK"],
        by simp [get_c_flags, backend_c_flags]⟩,
      ld_flags_base asli o, by simp [get_ld_flags, backend_ld_flags]⟩
  · exact ⟨⟨c_flags_base asli o ++ (["-DASL_SC"] ++ sc_types_include env),
        by simp [get_c_flags, backend_c_flags]⟩,
      ld_flags_base asli o ++ ["-L" ++ d ++ "/lib"] ++ ["-lsystemc"],
        by simp [get_ld_flags, backend_ld_flags, hd, hdne]⟩

/-- Under any valid backend and `--transform-int-slices` off,
`mk_script` succeeds. -/
theorem mk_script_isOk (args : Args) (argv : List String) (od g0 : String)
    (hg : backend_generator (ffi_of args) args.backend = some g0)
    (htis : args.transform_int_slices = false) :
    ∃ s, mk_script args argv od = .ok s := by
  cases hO0 : args.O0 with
  | true => exact ⟨_, mk_script_O0_eq args argv od g0 hg hO0⟩
  | false =>
    rcases Option.eq_none_or_eq_some args.intermediates with hint | ⟨p, hint⟩
    · exact ⟨_, mk_script_full_none args argv od g0 hg hO0 htis hint⟩
    · by_cases hp : p = ""
      · subst hp
        refine ⟨base_script (full_subs args argv
          (generate_c_of args od (decorate_generator args g0))), ?_⟩
        unfold mk_script
        rw [hg, hO0, htis, hint]
        simp
      · exact ⟨_, mk_script_full_inter args argv od g0 p hg hO0 htis hint hp⟩

/-- The `--run` tail: on a nonzero subprocess status it exits with that
status, having deleted nothing, and the failing subprocess is the last
effect of the trace; on success it completes and deletes the workspace
exactly when `--save-temps` was not given. -/
theorem run_phase_spec (args : Args) (env : String → Option String)
    (asli : String) (o : Oracle) (wd : String) (fns : Filenames)
    (t : List Effect) (ht : ∀ e ∈ t, isRmtree e = false)
    (cfl : List String)
    (hcf : (get_c_flags asli args.backend env o).2 = .ok cfl)
    (lfl : List String)
    (hlf : (get_ld_flags asli args.backend env o).2 = .ok lfl) :
    (∀ c, (run_phase args env asli o wd fns t).2 = .exited c → c ≠ 0
      ∧ (∀ e ∈ (run_phase args env asli o wd fns t).1, isRmtree e = false)
      ∧ ∃ cmd, (run_phase args env asli o wd fns t).1.getLast?
          = some (Effect.runProc cmd) ∧ o.exitOf cmd = c)
    ∧ ((run_phase args env asli o wd fns t).2 = .completed →
        (Effect.rmtree wd ∈ (run_phase args env asli o wd fns t).1
          ↔ args.save_temps = false))
    ∧ ∀ e, (run_phase args env asli o wd fns t).2 ≠ .crashed e := by
  have hcf2 : get_c_flags asli args.backend env o
      = (c_flags_base_effects asli, Except.ok cfl) := by
    conv_rhs => rw [← hcf]
    rfl
  have hlf2 : get_ld_flags asli args.backend env o
      = (ld_flags_base_effects asli, Except.ok lfl) := by
    conv_rhs => rw [← hlf]
    rfl
  unfold run_phase
  rw [hcf2]
  dsimp only
  rw [hlf2]
  dsimp only
  rcases hcl : compile_and_link_session args.generate_cxx fns.c_files
      args.extra_c fns.exe_file wd cfl lfl env o with ⟨tcl, rcl⟩
  obtain ⟨hclmem, hclerr⟩ := compile_and_link_session_spec args.generate_cxx
    fns.c_files args.extra_c fns.exe_file wd cfl lfl env o tcl rcl hcl
  have hT : ∀ e ∈ t ++ c_flags_base_effects asli
      ++ ld_flags_base_effects asli ++ tcl, isRmtree e = false := by
    intro e he
    simp only [List.append_assoc, List.mem_append] at he
    rcases he with he | he | he | he
    · exact ht e he
    · exact no_rmtree_c_flags_base_effects asli e he
    · exact no_rmtree_ld_flags_base_effects asli e he
    · exact hclmem e he
  cases rcl with
  | some code =>
    dsimp only
    refine ⟨?_, ?_, ?_⟩
    · intro c hc
      injection hc with hc
      subst hc
      obtain ⟨hne, cmdx, hlast, hexit⟩ := hclerr code rfl
      refine ⟨hne, hT, cmdx, ?_, hexit⟩
      have htcl : tcl ≠ [] := by
        intro hnil
        rw [hnil] at hlast
        cases hlast
      rw [List.getLast?_append_of_ne_nil _ htcl]
      exact hlast
    · intro hcomp
      simp at hcomp
    · intro e hcr
      simp at hcr
  | none =>
    dsimp only
    by_cases hxe : o.exitOf [fns.exe_file] ≠ 0
    · simp only [if_pos hxe]
      refine ⟨?_, ?_, ?_⟩
      · intro c hc
        injection hc with hc
        subst hc
        refine ⟨hxe, ?_, _, List.getLast?_concat _, rfl⟩
        intro e he
        rcases List.mem_append.mp he with he | he
        · exact hT e he
        · rcases List.mem_singleton.mp he with rfl
          rfl
      · intro hcomp
        simp at hcomp
      · intro e hcr
        simp at hcr
    · simp only [if_neg hxe]
      have hT2 : ∀ e ∈ t ++ c_flags_base_effects asli
          ++ ld_flags_base_effects asli ++ tcl
          ++ [Effect.runProc [fns.exe_file]], isRmtree e = false := by
        intro e he
        rcases List.mem_append.mp he with he | he
        · exact hT e he
        · rcases List.mem_singleton.mp he with rfl
          rfl
      obtain ⟨k1, k2, k3, k4⟩ := finishSession_spec args.save_temps wd _ hT2
      exact ⟨fun c hc => absurd hc (k3 c), fun _ => k2, k4⟩

/-- **C1** (counterexample part).  A build session whose ASLi subprocess
exits with status 2, without `--save-temps`: the session does forward
exit status 2, a Session Workspace was created, but no `shutil.rmtree`
deletion ever happens — refuting the claim that the workspace is deleted
unless persistence was requested. -/
theorem C1_cex_subprocess_failure_skips_cleanup :
    (buildSession build_args ["bin/asl2c.py", "--build", "spec.asl"]
        envEmpty "bin/asli" (constOracle 2)).2 = .exited 2
    ∧ (buildSession build_args ["bin/asl2c.py", "--build", "spec.asl"]
        envEmpty "bin/asli" (constOracle 2)).1.any isMkWorkspace = true
    ∧ (buildSession build_args ["bin/asl2c.py", "--build", "spec.asl"]
        envEmpty "bin/asli" (constOracle 2)).1.all
          (fun e => !(isRmtree e)) = true
    ∧ build_args.save_temps = false :=
  ⟨rfl, rfl, rfl, rfl⟩

/-- **C1** (amended).  In every build/run session (valid backend,
`--transform-int-slices` off, and for `sc` a usable `SC_TYPES_DIR`):
whenever the session exits abnormally, the forwarded status is the
nonzero exit status of the last subprocess in the trace and the Session
Workspace is never deleted — not even without `--save-temps`; the
workspace is deleted exactly on successful completion without
`--save-temps`; and no such session crashes with an uncaught
exception. -/
theorem C1_amended_failure_aborts_without_cleanup (args : Args)
    (argv : List String) (env : String → Option String) (asli : String)
    (o : Oracle) (htis : args.transform_int_slices = false)
    (hback : args.backend = "ac" ∨ args.backend = "c23"
      ∨ args.backend = "fallback"
      ∨ (args.backend = "sc" ∧ ∃ d, env "SC_TYPES_DIR" = some d ∧ d ≠ "")) :
    (∀ c, (buildSession args argv env asli o).2 = .exited c → c ≠ 0
      ∧ (∀ e ∈ (buildSession args argv env asli o).1, isRmtree e = false)
      ∧ ∃ cmd, (buildSession args argv env asli o).1.getLast?
          = some (Effect.runProc cmd) ∧ o.exitOf cmd = c)
    ∧ ((buildSession args argv env asli o).2 = .completed →
        (Effect.rmtree (working_dir_of args o)
            ∈ (buildSession args argv env asli o).1
          ↔ args.save_temps = false))
    ∧ ∀ e, (buildSession args argv env asli o).2 ≠ .crashed e := by
  obtain ⟨g0, hg⟩ : ∃ g0, backend_generator (ffi_of args) args.backend
      = some g0 := by
    rcases hback with hb | hb | hb | ⟨hb, -⟩ <;> rw [hb] <;> exact ⟨_, rfl⟩
  obtain ⟨s, hs⟩ := mk_script_isOk args argv (working_dir_of args o) g0 hg htis
  obtain ⟨⟨cfl, hcf⟩, lfl, hlf⟩ :=
    backend_flags_ok asli env o args.backend hback
  unfold buildSession
  dsimp only
  rw [hs]
  dsimp only
  set wd := working_dir_of args o with hwd
  set fns := mk_filenames args.backend wd args.basename args.generate_cxx
    with hfns
  set cmd := asli_cmd asli args fns.project_file
    ([fns.config_file] ++ args.configuration) with hcmd
  set e2 := [Effect.mkWorkspace wd] ++ [Effect.writeFile fns.project_file,
    Effect.writeFile fns.config_file] ++ [Effect.runProc cmd] with he2
  have he2r : ∀ e ∈ e2, isRmtree e = false := by
    intro e he
    rw [he2] at he
    simp only [List.append_assoc, List.mem_append, List.mem_cons,
      List.mem_singleton, List.not_mem_nil, or_false] at he
    rcases he with rfl | (rfl | rfl) | rfl <;> rfl
  by_cases hfail : o.exitOf cmd ≠ 0
  · simp only [if_pos hfail]
    refine ⟨?_, ?_, ?_⟩
    · intro c hc
      injection hc with hc
      subst hc
      refine ⟨hfail, he2r, cmd, ?_, rfl⟩
      rw [he2]
      exact List.getLast?_concat _
    · intro hcomp
      simp at hcomp
    · intro e hcr
      simp at hcr
  · simp only [if_neg hfail]
    obtain ⟨k1, k2, k3, k4⟩ := finishSession_spec args.save_temps wd e2 he2r
    by_cases hsfa : args.show_final_asl = true
    · simp only [if_pos hsfa]
      exact ⟨fun c hc => absurd hc (k3 c), fun _ => k2, k4⟩
    · simp only [if_neg hsfa]
      by_cases hrun : args.run = true
      · simp only [if_pos hrun]
        exact run_phase_spec args env asli o wd fns e2 he2r cfl hcf lfl hlf
      · simp only [if_neg hrun]
        exact ⟨fun c hc => absurd hc (k3 c), fun _ => k2, k4⟩

/-- Witness for C1 (amended): the abnormal-exit clause instantiated at a
concrete failing session (ASLi exits 2). -/
theorem C1_amended_failure_aborts_without_cleanup_witness :
    (2 : Nat) ≠ 0
    ∧ (∀ e ∈ (buildSession build_args ["bin/asl2c.py", "--build", "spec.asl"]
        envEmpty "bin/asli" (constOracle 2)).1, isRmtree e = false)
    ∧ ∃ cmd, (buildSession build_args ["bin/asl2c.py", "--build", "spec.asl"]
        envEmpty "bin/asli" (constOracle 2)).1.getLast?
          = some (Effect.runProc cmd)
        ∧ (constOracle 2).exitOf cmd = 2 :=
  (C1_amended_failure_aborts_without_cleanup build_args
    ["bin/asl2c.py", "--build", "spec.asl"] envEmpty "bin/asli"
    (constOracle 2) rfl (Or.inr (Or.inl rfl))).1 2 rfl
